import Mathlib

/-
  Verification of the schema-compilation core of the gojsonschema repository
  (src/schema.go) against its natural-language specification.

  The Go code is shallowly embedded: JSON values become an inductive type,
  the mutable pointer graph of sub-schemas becomes an arena of nodes indexed
  by natural numbers inside an explicit parser state, Go errors become an
  `Except` error type, and the non-structural `$ref` recursion is made total
  with an explicit fuel parameter (running out of fuel is a distinguished
  error, so genuine divergence of the source is visible as
  `.error .outOfFuel` for every fuel).
-/

namespace GoJsonSchema

/-! ## Generic JSON value (spec section 3.1; the Go side is `interface{}` trees) -/

inductive JValue where
  | null : JValue
  | bool (b : Bool) : JValue
  | num (q : Rat) : JValue
  | str (s : String) : JValue
  | arr (elems : List JValue) : JValue
  | obj (entries : List (String × JValue)) : JValue

/-- Key lookup in a decoded JSON object.  Go's `map[string]interface{}` has
unique keys; we model an object as an association list and read the first
occurrence of a key. -/
def getKey : List (String × JValue) → String → Option JValue
  | [], _ => none
  | (k', v) :: rest, k => if k' = k then some v else getKey rest k

/-- `isKind(documentNode, reflect.Map)` for the cases the compiler uses. -/
def isObjB : JValue → Bool
  | .obj _ => true
  | _ => false

mutual

/-- Structural equality test on JSON values (used by `AddEnum`, which in the
source serialises values and compares the strings). -/
def jEq : JValue → JValue → Bool
  | .null, .null => true
  | .bool a, .bool b => a == b
  | .num a, .num b => a == b
  | .str a, .str b => a == b
  | .arr a, .arr b => jEqList a b
  | .obj a, .obj b => jEqObj a b
  | _, _ => false

/-- Element-wise equality of JSON arrays. -/
def jEqList : List JValue → List JValue → Bool
  | [], [] => true
  | a :: as_, b :: bs => jEq a b && jEqList as_ bs
  | _, _ => false

/-- Entry-wise equality of JSON objects (order-sensitive, adequate here). -/
def jEqObj : List (String × JValue) → List (String × JValue) → Bool
  | [], [] => true
  | (ka, va) :: as_, (kb, vb) :: bs => ka == kb && jEq va vb && jEqObj as_ bs
  | _, _ => false

end

/-! ## Keyword and message constants (const.go of the repository, not under
src/; the values are the JSON-schema keyword names used throughout spec
section 4.4). -/

def KEY_SCHEMA : String := "$schema"
def KEY_ID : String := "id"
def KEY_REF : String := "$ref"
def KEY_TITLE : String := "title"
def KEY_DESCRIPTION : String := "description"
def KEY_TYPE : String := "type"
def KEY_ITEMS : String := "items"
def KEY_ADDITIONAL_ITEMS : String := "additionalItems"
def KEY_PROPERTIES : String := "properties"
def KEY_PATTERN_PROPERTIES : String := "patternProperties"
def KEY_ADDITIONAL_PROPERTIES : String := "additionalProperties"
def KEY_DEFINITIONS : String := "definitions"
def KEY_MULTIPLE_OF : String := "multipleOf"
def KEY_MINIMUM : String := "minimum"
def KEY_MAXIMUM : String := "maximum"
def KEY_EXCLUSIVE_MINIMUM : String := "exclusiveMinimum"
def KEY_EXCLUSIVE_MAXIMUM : String := "exclusiveMaximum"
def KEY_MIN_LENGTH : String := "minLength"
def KEY_MAX_LENGTH : String := "maxLength"
def KEY_PATTERN : String := "pattern"
def KEY_FORMAT : String := "format"
def KEY_MIN_PROPERTIES : String := "minProperties"
def KEY_MAX_PROPERTIES : String := "maxProperties"
def KEY_DEPENDENCIES : String := "dependencies"
def KEY_REQUIRED : String := "required"
def KEY_MIN_ITEMS : String := "minItems"
def KEY_MAX_ITEMS : String := "maxItems"
def KEY_UNIQUE_ITEMS : String := "uniqueItems"
def KEY_ENUM : String := "enum"
def KEY_ONE_OF : String := "oneOf"
def KEY_ANY_OF : String := "anyOf"
def KEY_ALL_OF : String := "allOf"
def KEY_NOT : String := "not"

def TYPE_OBJECT : String := "object"
def TYPE_STRING : String := "string"
def TYPE_BOOLEAN : String := "boolean"
def TYPE_INTEGER : String := "integer"
def TYPE_ARRAY : String := "array"
def TYPE_NUMBER : String := "number"

def STRING_SCHEMA : String := "schema"
def STRING_NUMBER : String := "number"
def STRING_PROPERTIES : String := "properties"
def STRING_DEPENDENCY : String := "dependency"
def STRING_ARRAY_OF_SCHEMAS : String := "array of schemas"
def STRING_ARRAY_OF_STRINGS : String := "array of strings"
def STRING_SCHEMA_OR_ARRAY_OF_STRINGS : String := "valid schema or array of strings"
def STRING_ROOT_SCHEMA_PROPERTY : String := "(root)"

/-- The valid JSON type names of draft v4 (spec section 3.4: `types` is a
set drawn from these seven names). -/
def JSON_TYPES : List String :=
  [TYPE_ARRAY, TYPE_BOOLEAN, TYPE_INTEGER, TYPE_NUMBER, "null", TYPE_OBJECT, TYPE_STRING]

/-! ## Compile-time errors (spec sections 6.3 and 7).  Each constructor is one
locale message key together with the detail values the source fills in. -/

inductive PErr where
  | outOfFuel : PErr
  | invalidType (expected given : String) : PErr
  | mustBeOfA (x y : String) : PErr
  | mustBeOfAn (x y : String) : PErr
  | mustBeOfType (key type_ : String) : PErr
  | cannotBeUsedWithout (x y : String) : PErr
  | cannotBeGT (x y : String) : PErr
  | keyCannotBeGreaterThan (key y : String) : PErr
  | mustBeGTEZero (key : String) : PErr
  | greaterThanZero (number : String) : PErr
  | mustBeValidRegex (key : String) : PErr
  | mustBeValidFormat (key : String) : PErr
  | keyItemsMustBeOfType (key type_ : String) : PErr
  | keyItemsMustBeUnique (key : String) : PErr
  | regexPattern (pat : String) : PErr
  | notAValidType (given : String) : PErr
  | referenceError (token : String) : PErr
deriving DecidableEq

/-- Error-propagating sequencing for the compiler (Go's
`if err != nil { return err }` pattern). -/
def pBind {α β : Type} (x : Except PErr α) (f : α → Except PErr β) : Except PErr β :=
  match x with
  | .ok a => f a
  | .error e => .error e

/-! ## JSON references (spec sections 3.2 and 4.2).
Modelled from the spec: the gojsonreference package is an external
collaborator (its code is not part of this repository); spec section 3.2
gives the structured form `(base_uri, fragment, HasFullUrl)` and section 4.2
specifies `Inherits` as RFC 3986 resolution — for the fragment-only
references exercised here, resolution keeps the base and replaces the
fragment. -/

structure JsonRef where
  baseUri : String
  pointer : List String
  hasFullUrl : Bool
deriving DecidableEq

/-- The fully-qualified string of a reference (`ref.String()` in the source);
used as interner key material. -/
def JsonRef.refString (r : JsonRef) : String :=
  r.baseUri ++ "#" ++ r.pointer.foldl (fun acc t => acc ++ "/" ++ t) ""

/-- Split a character list at a separator (the posit-free counterpart of
`String.splitOn`, written with structural recursion). -/
def splitChars (sep : Char) : List Char → List (List Char)
  | [] => [[]]
  | c :: rest =>
    match splitChars sep rest with
    | h :: t => if c = sep then [] :: h :: t else (c :: h) :: t
    | [] => [[c]]

/-- Fragment part of a reference string parsed as a JSON-pointer token list
(RFC 6901, spec section 3.3; `~0`/`~1` escapes are not needed by any input). -/
def parsePointerChars (l : List Char) : List String :=
  if l = [] then [] else ((splitChars '/' l).map (fun cs => String.mk cs)).tail

/-- Whether a reference string carries an absolute URL (`HasFullUrl`): it
contains a scheme separator. -/
def hasSchemeChars : List Char → Bool
  | ':' :: '/' :: '/' :: _ => true
  | _ :: t => hasSchemeChars t
  | [] => false

/-- Modelled from the spec: `NewRef(string) → ref | error` (spec section 4.2).
URL parsing failures are not reachable for schema-sourced strings, so the
model is total. -/
def newJsonReference (s : String) : Except PErr JsonRef :=
  match s.data with
  | '#' :: rest => .ok { baseUri := "", pointer := parsePointerChars rest, hasFullUrl := false }
  | other =>
    match splitChars '#' other with
    | [] => .ok { baseUri := "", pointer := [], hasFullUrl := false }
    | [base] => .ok { baseUri := String.mk base, pointer := [], hasFullUrl := hasSchemeChars base }
    | base :: frag :: _ =>
      .ok { baseUri := String.mk base, pointer := parsePointerChars frag
            hasFullUrl := hasSchemeChars base }

/-- Modelled from the spec: `ref.Inherits(other)` resolves `other` against
`ref` per RFC 3986 (spec section 4.2): a fragment-only child keeps the
parent's base URI and replaces the fragment. -/
def JsonRef.inherits (parent child : JsonRef) : JsonRef :=
  if child.hasFullUrl then child
  else if child.baseUri = "" then
    { baseUri := parent.baseUri, pointer := child.pointer, hasFullUrl := parent.hasFullUrl }
  else
    { baseUri := child.baseUri, pointer := child.pointer, hasFullUrl := child.hasFullUrl }

/-- `pointer.Get(doc)` — JSON-pointer navigation over generic values (spec
section 3.3); missing tokens fail. -/
def pointerGet : List String → JValue → Except PErr JValue
  | [], v => .ok v
  | t :: ts, .obj m =>
    match getKey m t with
    | some v => pointerGet ts v
    | none => .error (.referenceError t)
  | t :: ts, .arr xs =>
    match t.toNat? with
    | some i =>
      match xs.get? i with
      | some v => pointerGet ts v
      | none => .error (.referenceError t)
    | none => .error (.referenceError t)
  | t :: _, _ => .error (.referenceError t)

/-! ## Sub-schema nodes (spec section 3.4; subSchema.go of the repository is
not under src/, so the record and its Add helpers are modelled from the
spec's field list).  The mutable pointer graph is embedded as an arena:
nodes are stored in a list, and `parent`, `refSchema` and all owning child
fields hold arena indices. -/

structure SubSchema where
  property : String
  parent : Option Nat
  ref : JsonRef
  subSchemaRef : Option JsonRef
  refSchema : Option Nat
  id : Option String
  title : Option String
  description : Option String
  types : List String
  definitions : Option (List (String × Nat))
  propertiesChildren : List Nat
  patternProperties : Option (List (String × Nat))
  additionalProperties : Option (Bool ⊕ Nat)
  dependencies : Option (List (String × (List String ⊕ Nat)))
  itemsChildren : List Nat
  itemsChildrenIsSingleSchema : Bool
  additionalItems : Option (Bool ⊕ Nat)
  multipleOf : Option Rat
  minimum : Option Rat
  maximum : Option Rat
  exclusiveMinimum : Bool
  exclusiveMaximum : Bool
  minLength : Option Int
  maxLength : Option Int
  pattern : Option String
  format : Option String
  minProperties : Option Int
  maxProperties : Option Int
  required : List String
  minItems : Option Int
  maxItems : Option Int
  uniqueItems : Bool
  enum : List JValue
  oneOf : List Nat
  anyOf : List Nat
  allOf : List Nat
  not : Option Nat

/-- The zero value of `subSchema` (Go's `&subSchema{}` before fields are
filled in). -/
def emptySubSchema : SubSchema where
  property := ""
  parent := none
  ref := { baseUri := "", pointer := [], hasFullUrl := false }
  subSchemaRef := none
  refSchema := none
  id := none
  title := none
  description := none
  types := []
  definitions := none
  propertiesChildren := []
  patternProperties := none
  additionalProperties := none
  dependencies := none
  itemsChildren := []
  itemsChildrenIsSingleSchema := false
  additionalItems := none
  multipleOf := none
  minimum := none
  maximum := none
  exclusiveMinimum := false
  exclusiveMaximum := false
  minLength := none
  maxLength := none
  pattern := none
  format := none
  minProperties := none
  maxProperties := none
  required := []
  minItems := none
  maxItems := none
  uniqueItems := false
  enum := []
  oneOf := []
  anyOf := []
  allOf := []
  not := none

/-- Modelled from the spec: the type-set abstraction behind `types.Add`
(spec sections 3.4 and 4.4 item 5: a set of the seven JSON type names that
rejects duplicates). -/
def typesAdd (t : String) (ts : List String) : Except PErr (List String) :=
  if ¬ (t ∈ JSON_TYPES) then .error (.notAValidType t)
  else if t ∈ ts then .error (.keyItemsMustBeUnique KEY_TYPE)
  else .ok (ts ++ [t])

/-- Modelled from the spec: `AddRequired` — `required` is a sequence of
unique strings, duplicates rejected at compile time (spec section 3.4). -/
def requiredAdd (k : String) (ks : List String) : Except PErr (List String) :=
  if k ∈ ks then .error (.keyItemsMustBeUnique KEY_REQUIRED)
  else .ok (ks ++ [k])

/-- Modelled from the spec: `AddEnum` — `enum` holds literal values with
duplicates rejected (spec section 3.4). -/
def enumAdd (v : JValue) (es : List JValue) : Except PErr (List JValue) :=
  if es.any (fun e => jEq e v) then .error (.keyItemsMustBeUnique KEY_ENUM)
  else .ok (es ++ [v])

/-- Modelled from the spec: the format-checker registry interface
`Has(name)` (spec section 6.2), with draft v4's default checkers. -/
def formatCheckersHas (s : String) : Bool :=
  s ∈ ["date-time", "email", "hostname", "ipv4", "ipv6", "uri"]

/-- Modelled from the spec: regex compilation (`regexpCompile`).  The regex
engine is Go's regexp package, an external collaborator; no claim depends on
a pattern being rejected, so compilation is modelled as always succeeding. -/
def regexpValidB (_pat : String) : Bool := true

/-- `mustBeNumber` (utils.go of the repository, not under src/): spec
section 3.1 — a JSON number, modelled as a rational. -/
def mustBeNumber : JValue → Option Rat
  | .num q => some q
  | _ => none

/-- `mustBeInteger` (utils.go of the repository, not under src/): spec
section 3.1 — an integer is a number whose fractional part is zero. -/
def mustBeInteger : JValue → Option Int
  | .num q => if q.den = 1 then some q.num else none
  | _ => none

/-! ## Parser state: the node arena and the sub-schema interner
(spec section 4.3; schemaReferencePool.go of the repository is not under
src/ — modelled from the spec as a mapping from fully-qualified reference
string to node, `Add` overwriting like a Go map assignment). -/

structure ParseState where
  nodes : List SubSchema
  refPool : List (String × Nat)

/-- Interner lookup `Get(key)`. -/
def poolGet (k : String) : List (String × Nat) → Option Nat
  | [] => none
  | (k', v) :: rest => if k' = k then some v else poolGet k rest

/-- Association-map update (Go map assignment semantics). -/
def assocSet {α : Type} : List (String × α) → String → α → List (String × α)
  | [], k, v => [(k, v)]
  | (k', v') :: rest, k, v =>
    if k' = k then (k, v) :: rest else (k', v') :: assocSet rest k v

/-- Association-map lookup. -/
def assocGet {α : Type} : List (String × α) → String → Option α
  | [], _ => none
  | (k', v') :: rest, k => if k' = k then some v' else assocGet rest k

/-- The compile-time context: the root document reference and the document
sources (spec section 4.1; schemaPool.go of the repository is not under
src/ — modelled from the spec: an optional standalone document plus a
URI-keyed cache filled by the external loader). -/
structure ParseCtx where
  documentReference : JsonRef
  standalone : Option JValue
  documents : List (String × JValue)

/-- The type of the recursive parse entry point, threaded into the keyword
steps: (document node, typeChecked, arena id of the node being parsed,
current value of that node, state). -/
def ParseFn : Type :=
  JValue → Bool → Nat → SubSchema → ParseState → Except PErr (SubSchema × ParseState)

/-- Allocate a fresh child node, parse the given document into it, and store
the finished node in the arena (Go allocates with `&subSchema{...}` and
mutates in place; the write-back at the end of the child's parse is
observationally the same because only the child's parse touches it). -/
def runChild (pf : ParseFn) (doc : JValue) (tc : Bool) (init : SubSchema)
    (st : ParseState) : Except PErr (Nat × ParseState) :=
  let cid := st.nodes.length
  let st1 : ParseState := { nodes := st.nodes ++ [init], refPool := st.refPool }
  pBind (pf doc tc cid init st1)
    (fun r => .ok (cid, { nodes := r.2.nodes.set cid r.1, refPool := r.2.refPool }))

/-! ## Keyword processing steps.  Each step mirrors one `if ...V != nil`
block of `parseSchema` (src/schema.go lines 240-881), in source order.
Steps that do not recurse act on the current node only; recursive steps
additionally thread the arena state and take the current node's arena id
(`selfId`, the `parent` pointer of freshly allocated children). -/

/-- `$schema` block (src/schema.go lines 240-257). -/
def stepSchemaKw (v? : Option JValue) (cur : SubSchema) : Except PErr SubSchema :=
  match v? with
  | none => .ok cur
  | some (.str schemaRef) =>
    pBind (newJsonReference schemaRef) (fun r => .ok { cur with subSchemaRef := some r })
  | some _ => .error (.invalidType TYPE_STRING KEY_SCHEMA)

/-- `definitions` inner loop (src/schema.go lines 282-299): each value must
be an object; the child is recorded in the definitions map and parsed with
`typeChecked = true`. -/
def definitionsLoop (pf : ParseFn) (selfId : Nat) :
    List (String × JValue) → SubSchema × ParseState → Except PErr (SubSchema × ParseState)
  | [], x => .ok x
  | (dk, dv) :: rest, (cur, st) =>
    if isObjB dv then
      pBind (runChild pf dv true
          { emptySubSchema with property := KEY_DEFINITIONS, parent := some selfId, ref := cur.ref } st)
        (fun r => definitionsLoop pf selfId rest
          ({ cur with definitions := some (assocSet (cur.definitions.getD []) dk r.1) }, r.2))
    else .error (.invalidType STRING_ARRAY_OF_SCHEMAS KEY_DEFINITIONS)

/-- `definitions` block (src/schema.go lines 278-309). -/
def stepDefinitions (pf : ParseFn) (selfId : Nat) (v? : Option JValue)
    (x : SubSchema × ParseState) : Except PErr (SubSchema × ParseState) :=
  match v? with
  | none => .ok x
  | some (.obj defs) => definitionsLoop pf selfId defs ({ x.1 with definitions := some [] }, x.2)
  | some _ => .error (.invalidType STRING_ARRAY_OF_SCHEMAS KEY_DEFINITIONS)

/-- `id` block (src/schema.go lines 311-324). -/
def stepId (v? : Option JValue) (x : SubSchema × ParseState) :
    Except PErr (SubSchema × ParseState) :=
  match v? with
  | none => .ok x
  | some (.str k) => .ok ({ x.1 with id := some k }, x.2)
  | some _ => .error (.invalidType TYPE_STRING KEY_ID)

/-- `title` block (src/schema.go lines 326-339).  Note: the extraction
switch (lines 171-238) has no `case KEY_TITLE`, so the source always hands
this block a nil value and it is dead code. -/
def stepTitle (v? : Option JValue) (x : SubSchema × ParseState) :
    Except PErr (SubSchema × ParseState) :=
  match v? with
  | none => .ok x
  | some (.str k) => .ok ({ x.1 with title := some k }, x.2)
  | some _ => .error (.invalidType TYPE_STRING KEY_TITLE)

/-- `description` block (src/schema.go lines 341-354). -/
def stepDescription (v? : Option JValue) (x : SubSchema × ParseState) :
    Except PErr (SubSchema × ParseState) :=
  match v? with
  | none => .ok x
  | some (.str k) => .ok ({ x.1 with description := some k }, x.2)
  | some _ => .error (.invalidType TYPE_STRING KEY_DESCRIPTION)

/-- `type` array branch (src/schema.go lines 365-379): the return value of
`types.Add` is discarded for array elements, so a failing Add leaves the
type set unchanged and parsing continues. -/
def typesLoop : List JValue → List String → Except PErr (List String)
  | [], ts => .ok ts
  | (.str k) :: rest, ts =>
    typesLoop rest (match typesAdd k ts with | .ok ts2 => ts2 | .error _ => ts)
  | _ :: _, _ =>
    .error (.invalidType (TYPE_STRING ++ "/" ++ STRING_ARRAY_OF_STRINGS) KEY_TYPE)

/-- `type` block (src/schema.go lines 356-389).  In the single-string branch
the `Add` error is propagated (line 361); in the array branch it is not. -/
def stepType (v? : Option JValue) (x : SubSchema × ParseState) :
    Except PErr (SubSchema × ParseState) :=
  match v? with
  | none => .ok x
  | some (.str k) =>
    pBind (typesAdd k x.1.types) (fun ts => .ok ({ x.1 with types := ts }, x.2))
  | some (.arr arrayOfTypes) =>
    pBind (typesLoop arrayOfTypes x.1.types) (fun ts => .ok ({ x.1 with types := ts }, x.2))
  | some _ =>
    .error (.invalidType (TYPE_STRING ++ "/" ++ STRING_ARRAY_OF_STRINGS) KEY_TYPE)

/-- `parseProperties` loop (src/schema.go lines 966-974): one owned child
per entry, parsed with `typeChecked = false`. -/
def propertiesLoop (pf : ParseFn) (selfId : Nat) :
    List (String × JValue) → SubSchema × ParseState → Except PErr (SubSchema × ParseState)
  | [], x => .ok x
  | (k, v) :: rest, (cur, st) =>
    pBind (runChild pf v false
        { emptySubSchema with property := k, parent := some selfId, ref := cur.ref } st)
      (fun r => propertiesLoop pf selfId rest
        ({ cur with propertiesChildren := cur.propertiesChildren ++ [r.1] }, r.2))

/-- `parseProperties` (src/schema.go lines 956-977). -/
def parseProperties (pf : ParseFn) (selfId : Nat) (documentNode : JValue)
    (x : SubSchema × ParseState) : Except PErr (SubSchema × ParseState) :=
  match documentNode with
  | .obj m => propertiesLoop pf selfId m x
  | _ => .error (.mustBeOfType STRING_PROPERTIES TYPE_OBJECT)

/-- `properties` block (src/schema.go lines 391-396). -/
def stepProperties (pf : ParseFn) (selfId : Nat) (v? : Option JValue)
    (x : SubSchema × ParseState) : Except PErr (SubSchema × ParseState) :=
  match v? with
  | none => .ok x
  | some v => parseProperties pf selfId v x

/-- `additionalProperties` block (src/schema.go lines 398-418): a boolean is
stored directly, an object becomes an owned child parsed with
`typeChecked = true`. -/
def stepAdditionalProperties (pf : ParseFn) (selfId : Nat) (v? : Option JValue)
    (x : SubSchema × ParseState) : Except PErr (SubSchema × ParseState) :=
  match v? with
  | none => .ok x
  | some (.bool b) => .ok ({ x.1 with additionalProperties := some (.inl b) }, x.2)
  | some (.obj m) =>
    let init := { emptySubSchema with
      property := KEY_ADDITIONAL_PROPERTIES
      parent := some selfId
      ref := x.1.ref }
    pBind (runChild pf (.obj m) true init x.2)
      (fun r => .ok ({ x.1 with additionalProperties := some (.inr r.1) }, r.2))
  | some _ =>
    .error (.invalidType (TYPE_BOOLEAN ++ "/" ++ STRING_SCHEMA) KEY_ADDITIONAL_PROPERTIES)

/-- `patternProperties` inner loop (src/schema.go lines 425-438): each key
must compile as a regex, each value is parsed with `typeChecked = false`,
and the child is recorded after its parse. -/
def patternPropertiesLoop (pf : ParseFn) (selfId : Nat) :
    List (String × JValue) → SubSchema × ParseState → Except PErr (SubSchema × ParseState)
  | [], x => .ok x
  | (k, v) :: rest, (cur, st) =>
    if regexpValidB k then
      pBind (runChild pf v false
          { emptySubSchema with property := k, parent := some selfId, ref := cur.ref } st)
        (fun r => patternPropertiesLoop pf selfId rest
          ({ cur with patternProperties := some (assocSet (cur.patternProperties.getD []) k r.1) }, r.2))
    else .error (.regexPattern k)

/-- `patternProperties` block (src/schema.go lines 420-449).  An empty map
leaves the field nil; a non-empty map initialises it before the loop. -/
def stepPatternProperties (pf : ParseFn) (selfId : Nat) (v? : Option JValue)
    (x : SubSchema × ParseState) : Except PErr (SubSchema × ParseState) :=
  match v? with
  | none => .ok x
  | some (.obj m) =>
    if m.length > 0 then
      patternPropertiesLoop pf selfId m ({ x.1 with patternProperties := some [] }, x.2)
    else .ok x
  | some _ => .error (.invalidType STRING_SCHEMA KEY_PATTERN_PROPERTIES)

/-- Property-dependency inner loop (src/schema.go lines 997-1010): each
element must be a string; the accumulated list is written into the
dependencies map inside the loop body, so an empty list writes nothing. -/
def dependencyStringsLoop (k : String) :
    List JValue → List String → SubSchema → Except PErr SubSchema
  | [], _, cur => .ok cur
  | value :: rest, acc, cur =>
    match value with
    | .str val =>
      let acc1 := acc ++ [val]
      dependencyStringsLoop k rest acc1
        { cur with dependencies := some (assocSet (cur.dependencies.getD []) k (.inl acc1)) }
    | _ => .error (.mustBeOfType STRING_DEPENDENCY STRING_SCHEMA_OR_ARRAY_OF_STRINGS)

/-- `parseDependencies` entry loop (src/schema.go lines 990-1030). -/
def dependenciesLoop (pf : ParseFn) (selfId : Nat) :
    List (String × JValue) → SubSchema × ParseState → Except PErr (SubSchema × ParseState)
  | [], x => .ok x
  | (k, v) :: rest, (cur, st) =>
    match v with
    | .arr values =>
      pBind (dependencyStringsLoop k values [] cur)
        (fun cur1 => dependenciesLoop pf selfId rest (cur1, st))
    | .obj m =>
      pBind (runChild pf (.obj m) true
          { emptySubSchema with property := k, parent := some selfId, ref := cur.ref } st)
        (fun r => dependenciesLoop pf selfId rest
          ({ cur with dependencies := some (assocSet (cur.dependencies.getD []) k (.inr r.1)) }, r.2))
    | _ => .error (.mustBeOfType STRING_DEPENDENCY STRING_SCHEMA_OR_ARRAY_OF_STRINGS)

/-- `parseDependencies` (src/schema.go lines 979-1033): the dependencies map
is initialised to empty before the loop. -/
def parseDependencies (pf : ParseFn) (selfId : Nat) (documentNode : JValue)
    (x : SubSchema × ParseState) : Except PErr (SubSchema × ParseState) :=
  match documentNode with
  | .obj m => dependenciesLoop pf selfId m ({ x.1 with dependencies := some [] }, x.2)
  | _ => .error (.mustBeOfType KEY_DEPENDENCIES TYPE_OBJECT)

/-- `dependencies` block (src/schema.go lines 451-456). -/
def stepDependencies (pf : ParseFn) (selfId : Nat) (v? : Option JValue)
    (x : SubSchema × ParseState) : Except PErr (SubSchema × ParseState) :=
  match v? with
  | none => .ok x
  | some v => parseDependencies pf selfId v x

/-- `items` tuple-form loop (src/schema.go lines 462-480): each element must
be an object, children are appended and parsed with `typeChecked = true`,
and the single-schema flag is cleared after every element. -/
def itemsLoop (pf : ParseFn) (selfId : Nat) :
    List JValue → SubSchema × ParseState → Except PErr (SubSchema × ParseState)
  | [], x => .ok x
  | itemElement :: rest, (cur, st) =>
    if isObjB itemElement then
      pBind (runChild pf itemElement true
          { emptySubSchema with property := KEY_ITEMS, parent := some selfId, ref := cur.ref } st)
        (fun r => itemsLoop pf selfId rest
          ({ cur with
             itemsChildren := cur.itemsChildren ++ [r.1]
             itemsChildrenIsSingleSchema := false }, r.2))
    else .error (.invalidType (STRING_SCHEMA ++ "/" ++ STRING_ARRAY_OF_SCHEMAS) KEY_ITEMS)

/-- `items` block (src/schema.go lines 458-498). -/
def stepItems (pf : ParseFn) (selfId : Nat) (v? : Option JValue)
    (x : SubSchema × ParseState) : Except PErr (SubSchema × ParseState) :=
  match v? with
  | none => .ok x
  | some (.arr elems) => itemsLoop pf selfId elems x
  | some (.obj m) =>
    let init := { emptySubSchema with
      property := KEY_ITEMS
      parent := some selfId
      ref := x.1.ref }
    pBind (runChild pf (.obj m) true init x.2)
      (fun r => .ok ({ x.1 with
             itemsChildren := x.1.itemsChildren ++ [r.1]
             itemsChildrenIsSingleSchema := true }, r.2))
  | some _ =>
    .error (.invalidType (STRING_SCHEMA ++ "/" ++ STRING_ARRAY_OF_SCHEMAS) KEY_ITEMS)

/-- `additionalItems` block (src/schema.go lines 500-520). -/
def stepAdditionalItems (pf : ParseFn) (selfId : Nat) (v? : Option JValue)
    (x : SubSchema × ParseState) : Except PErr (SubSchema × ParseState) :=
  match v? with
  | none => .ok x
  | some (.bool b) => .ok ({ x.1 with additionalItems := some (.inl b) }, x.2)
  | some (.obj m) =>
    let init := { emptySubSchema with
      property := KEY_ADDITIONAL_ITEMS
      parent := some selfId
      ref := x.1.ref }
    pBind (runChild pf (.obj m) true init x.2)
      (fun r => .ok ({ x.1 with additionalItems := some (.inr r.1) }, r.2))
  | some _ =>
    .error (.invalidType (TYPE_BOOLEAN ++ "/" ++ STRING_SCHEMA) KEY_ADDITIONAL_ITEMS)

/-- `multipleOf` block (src/schema.go lines 522-541): must be a number and
strictly positive. -/
def stepMultipleOf (v? : Option JValue) (x : SubSchema × ParseState) :
    Except PErr (SubSchema × ParseState) :=
  match v? with
  | none => .ok x
  | some v =>
    match mustBeNumber v with
    | none => .error (.invalidType STRING_NUMBER KEY_MULTIPLE_OF)
    | some q =>
      if q ≤ 0 then .error (.greaterThanZero KEY_MULTIPLE_OF)
      else .ok ({ x.1 with multipleOf := some q }, x.2)

/-- `minimum` block (src/schema.go lines 543-552). -/
def stepMinimum (v? : Option JValue) (x : SubSchema × ParseState) :
    Except PErr (SubSchema × ParseState) :=
  match v? with
  | none => .ok x
  | some v =>
    match mustBeNumber v with
    | none => .error (.mustBeOfA KEY_MINIMUM STRING_NUMBER)
    | some q => .ok ({ x.1 with minimum := some q }, x.2)

/-- `exclusiveMinimum` block (src/schema.go lines 554-569): a boolean that
requires `minimum` to have been set. -/
def stepExclusiveMinimum (v? : Option JValue) (x : SubSchema × ParseState) :
    Except PErr (SubSchema × ParseState) :=
  match v? with
  | none => .ok x
  | some (.bool b) =>
    match x.1.minimum with
    | none => .error (.cannotBeUsedWithout KEY_EXCLUSIVE_MINIMUM KEY_MINIMUM)
    | some _ => .ok ({ x.1 with exclusiveMinimum := b }, x.2)
  | some _ => .error (.mustBeOfA KEY_EXCLUSIVE_MINIMUM TYPE_BOOLEAN)

/-- `maximum` block (src/schema.go lines 571-580). -/
def stepMaximum (v? : Option JValue) (x : SubSchema × ParseState) :
    Except PErr (SubSchema × ParseState) :=
  match v? with
  | none => .ok x
  | some v =>
    match mustBeNumber v with
    | none => .error (.mustBeOfA KEY_MAXIMUM STRING_NUMBER)
    | some q => .ok ({ x.1 with maximum := some q }, x.2)

/-- `exclusiveMaximum` block (src/schema.go lines 582-597); the wrong-type
error reports `number` rather than `boolean`, as in the source (line 594). -/
def stepExclusiveMaximum (v? : Option JValue) (x : SubSchema × ParseState) :
    Except PErr (SubSchema × ParseState) :=
  match v? with
  | none => .ok x
  | some (.bool b) =>
    match x.1.maximum with
    | none => .error (.cannotBeUsedWithout KEY_EXCLUSIVE_MAXIMUM KEY_MAXIMUM)
    | some _ => .ok ({ x.1 with exclusiveMaximum := b }, x.2)
  | some _ => .error (.mustBeOfA KEY_EXCLUSIVE_MAXIMUM STRING_NUMBER)

/-- `minimum <= maximum` cross-check (src/schema.go lines 599-606). -/
def stepMinMaxCheck (x : SubSchema × ParseState) : Except PErr (SubSchema × ParseState) :=
  match x.1.minimum, x.1.maximum with
  | some mn, some mx =>
    if mn > mx then .error (.cannotBeGT KEY_MINIMUM KEY_MAXIMUM) else .ok x
  | _, _ => .ok x

/-- `minLength` block (src/schema.go lines 610-625). -/
def stepMinLength (v? : Option JValue) (x : SubSchema × ParseState) :
    Except PErr (SubSchema × ParseState) :=
  match v? with
  | none => .ok x
  | some v =>
    match mustBeInteger v with
    | none => .error (.mustBeOfAn KEY_MIN_LENGTH TYPE_INTEGER)
    | some i =>
      if i < 0 then .error (.mustBeGTEZero KEY_MIN_LENGTH)
      else .ok ({ x.1 with minLength := some i }, x.2)

/-- `maxLength` block (src/schema.go lines 627-642). -/
def stepMaxLength (v? : Option JValue) (x : SubSchema × ParseState) :
    Except PErr (SubSchema × ParseState) :=
  match v? with
  | none => .ok x
  | some v =>
    match mustBeInteger v with
    | none => .error (.mustBeOfAn KEY_MAX_LENGTH TYPE_INTEGER)
    | some i =>
      if i < 0 then .error (.mustBeGTEZero KEY_MAX_LENGTH)
      else .ok ({ x.1 with maxLength := some i }, x.2)

/-- `minLength <= maxLength` cross-check (src/schema.go lines 644-651). -/
def stepLengthCheck (x : SubSchema × ParseState) : Except PErr (SubSchema × ParseState) :=
  match x.1.minLength, x.1.maxLength with
  | some mn, some mx =>
    if mn > mx then .error (.cannotBeGT KEY_MIN_LENGTH KEY_MAX_LENGTH) else .ok x
  | _, _ => .ok x

/-- `pattern` block (src/schema.go lines 653-669). -/
def stepPattern (v? : Option JValue) (x : SubSchema × ParseState) :
    Except PErr (SubSchema × ParseState) :=
  match v? with
  | none => .ok x
  | some (.str k) =>
    if regexpValidB k then .ok ({ x.1 with pattern := some k }, x.2)
    else .error (.mustBeValidRegex KEY_PATTERN)
  | some _ => .error (.mustBeOfA KEY_PATTERN TYPE_STRING)

/-- `format` block (src/schema.go lines 671-681): stored only when the value
is a string naming a registered checker; otherwise a single shared error. -/
def stepFormat (v? : Option JValue) (x : SubSchema × ParseState) :
    Except PErr (SubSchema × ParseState) :=
  match v? with
  | none => .ok x
  | some (.str s) =>
    if formatCheckersHas s then .ok ({ x.1 with format := some s }, x.2)
    else .error (.mustBeValidFormat KEY_FORMAT)
  | some _ => .error (.mustBeValidFormat KEY_FORMAT)

/-- `minProperties` block (src/schema.go lines 685-700). -/
def stepMinProperties (v? : Option JValue) (x : SubSchema × ParseState) :
    Except PErr (SubSchema × ParseState) :=
  match v? with
  | none => .ok x
  | some v =>
    match mustBeInteger v with
    | none => .error (.mustBeOfAn KEY_MIN_PROPERTIES TYPE_INTEGER)
    | some i =>
      if i < 0 then .error (.mustBeGTEZero KEY_MIN_PROPERTIES)
      else .ok ({ x.1 with minProperties := some i }, x.2)

/-- `maxProperties` block (src/schema.go lines 702-717). -/
def stepMaxProperties (v? : Option JValue) (x : SubSchema × ParseState) :
    Except PErr (SubSchema × ParseState) :=
  match v? with
  | none => .ok x
  | some v =>
    match mustBeInteger v with
    | none => .error (.mustBeOfAn KEY_MAX_PROPERTIES TYPE_INTEGER)
    | some i =>
      if i < 0 then .error (.mustBeGTEZero KEY_MAX_PROPERTIES)
      else .ok ({ x.1 with maxProperties := some i }, x.2)

/-- `minProperties <= maxProperties` cross-check (src/schema.go lines
719-726). -/
def stepPropertiesCheck (x : SubSchema × ParseState) : Except PErr (SubSchema × ParseState) :=
  match x.1.minProperties, x.1.maxProperties with
  | some mn, some mx =>
    if mn > mx then .error (.keyCannotBeGreaterThan KEY_MIN_PROPERTIES KEY_MAX_PROPERTIES)
    else .ok x
  | _, _ => .ok x

/-- `required` element loop (src/schema.go lines 730-741). -/
def requiredLoop : List JValue → List String → Except PErr (List String)
  | [], ks => .ok ks
  | (.str k) :: rest, ks => pBind (requiredAdd k ks) (fun ks1 => requiredLoop rest ks1)
  | _ :: _, _ => .error (.keyItemsMustBeOfType KEY_REQUIRED TYPE_STRING)

/-- `required` block (src/schema.go lines 728-748). -/
def stepRequired (v? : Option JValue) (x : SubSchema × ParseState) :
    Except PErr (SubSchema × ParseState) :=
  match v? with
  | none => .ok x
  | some (.arr values) =>
    pBind (requiredLoop values x.1.required) (fun ks => .ok ({ x.1 with required := ks }, x.2))
  | some _ => .error (.mustBeOfAn KEY_REQUIRED TYPE_ARRAY)

/-- `minItems` block (src/schema.go lines 752-767). -/
def stepMinItems (v? : Option JValue) (x : SubSchema × ParseState) :
    Except PErr (SubSchema × ParseState) :=
  match v? with
  | none => .ok x
  | some v =>
    match mustBeInteger v with
    | none => .error (.mustBeOfAn KEY_MIN_ITEMS TYPE_INTEGER)
    | some i =>
      if i < 0 then .error (.mustBeGTEZero KEY_MIN_ITEMS)
      else .ok ({ x.1 with minItems := some i }, x.2)

/-- `maxItems` block (src/schema.go lines 769-784).  Unlike lengths and
property counts, the source performs no `minItems <= maxItems` cross-check
afterwards. -/
def stepMaxItems (v? : Option JValue) (x : SubSchema × ParseState) :
    Except PErr (SubSchema × ParseState) :=
  match v? with
  | none => .ok x
  | some v =>
    match mustBeInteger v with
    | none => .error (.mustBeOfAn KEY_MAX_ITEMS TYPE_INTEGER)
    | some i =>
      if i < 0 then .error (.mustBeGTEZero KEY_MAX_ITEMS)
      else .ok ({ x.1 with maxItems := some i }, x.2)

/-- `uniqueItems` block (src/schema.go lines 786-795). -/
def stepUniqueItems (v? : Option JValue) (x : SubSchema × ParseState) :
    Except PErr (SubSchema × ParseState) :=
  match v? with
  | none => .ok x
  | some (.bool k) => .ok ({ x.1 with uniqueItems := k }, x.2)
  | some _ => .error (.mustBeOfA KEY_UNIQUE_ITEMS TYPE_BOOLEAN)

/-- `enum` element loop (src/schema.go lines 801-805). -/
def enumLoop : List JValue → List JValue → Except PErr (List JValue)
  | [], es => .ok es
  | v :: rest, es => pBind (enumAdd v es) (fun es1 => enumLoop rest es1)

/-- `enum` block (src/schema.go lines 799-812). -/
def stepEnum (v? : Option JValue) (x : SubSchema × ParseState) :
    Except PErr (SubSchema × ParseState) :=
  match v? with
  | none => .ok x
  | some (.arr values) =>
    pBind (enumLoop values x.1.enum) (fun es => .ok ({ x.1 with enum := es }, x.2))
  | some _ => .error (.mustBeOfAn KEY_ENUM TYPE_ARRAY)

/-- `oneOf` element loop (src/schema.go lines 818-824): the child is
appended, then parsed with `typeChecked = false`. -/
def oneOfLoop (pf : ParseFn) (selfId : Nat) :
    List JValue → SubSchema × ParseState → Except PErr (SubSchema × ParseState)
  | [], x => .ok x
  | v :: rest, (cur, st) =>
    pBind (runChild pf v false
        { emptySubSchema with property := KEY_ONE_OF, parent := some selfId, ref := cur.ref } st)
      (fun r => oneOfLoop pf selfId rest ({ cur with oneOf := cur.oneOf ++ [r.1] }, r.2))

/-- `oneOf` block (src/schema.go lines 816-831). -/
def stepOneOf (pf : ParseFn) (selfId : Nat) (v? : Option JValue)
    (x : SubSchema × ParseState) : Except PErr (SubSchema × ParseState) :=
  match v? with
  | none => .ok x
  | some (.arr values) => oneOfLoop pf selfId values x
  | some _ => .error (.mustBeOfAn KEY_ONE_OF TYPE_ARRAY)

/-- `anyOf` element loop (src/schema.go lines 835-841). -/
def anyOfLoop (pf : ParseFn) (selfId : Nat) :
    List JValue → SubSchema × ParseState → Except PErr (SubSchema × ParseState)
  | [], x => .ok x
  | v :: rest, (cur, st) =>
    pBind (runChild pf v false
        { emptySubSchema with property := KEY_ANY_OF, parent := some selfId, ref := cur.ref } st)
      (fun r => anyOfLoop pf selfId rest ({ cur with anyOf := cur.anyOf ++ [r.1] }, r.2))

/-- `anyOf` block (src/schema.go lines 833-848). -/
def stepAnyOf (pf : ParseFn) (selfId : Nat) (v? : Option JValue)
    (x : SubSchema × ParseState) : Except PErr (SubSchema × ParseState) :=
  match v? with
  | none => .ok x
  | some (.arr values) => anyOfLoop pf selfId values x
  | some _ => .error (.mustBeOfAn KEY_ANY_OF TYPE_ARRAY)

/-- `allOf` element loop (src/schema.go lines 852-858). -/
def allOfLoop (pf : ParseFn) (selfId : Nat) :
    List JValue → SubSchema × ParseState → Except PErr (SubSchema × ParseState)
  | [], x => .ok x
  | v :: rest, (cur, st) =>
    pBind (runChild pf v false
        { emptySubSchema with property := KEY_ALL_OF, parent := some selfId, ref := cur.ref } st)
      (fun r => allOfLoop pf selfId rest ({ cur with allOf := cur.allOf ++ [r.1] }, r.2))

/-- `allOf` block (src/schema.go lines 850-865).  The fallback error for a
non-array value names `anyOf` (`KEY_ANY_OF` on line 862), exactly as the
source does. -/
def stepAllOf (pf : ParseFn) (selfId : Nat) (v? : Option JValue)
    (x : SubSchema × ParseState) : Except PErr (SubSchema × ParseState) :=
  match v? with
  | none => .ok x
  | some (.arr values) => allOfLoop pf selfId values x
  | some _ => .error (.mustBeOfAn KEY_ANY_OF TYPE_ARRAY)

/-- `not` block (src/schema.go lines 867-880). -/
def stepNot (pf : ParseFn) (selfId : Nat) (v? : Option JValue)
    (x : SubSchema × ParseState) : Except PErr (SubSchema × ParseState) :=
  match v? with
  | none => .ok x
  | some (.obj m) =>
    pBind (runChild pf (.obj m) true
        { emptySubSchema with property := KEY_NOT, parent := some selfId, ref := x.1.ref } x.2)
      (fun r => .ok ({ x.1 with not := some r.1 }, r.2))
  | some _ => .error (.mustBeOfAn KEY_NOT TYPE_OBJECT)

/-! ## The remaining keyword chain of `parseSchema` after the `$ref` block
(src/schema.go lines 278-882), as one error-propagating pipeline. -/

/-- Keyword blocks of `parseSchema` from `definitions` to `not`
(src/schema.go lines 278-882).  Keyword values are read from the object the
way the extraction switch of lines 171-238 fills its local variables; the
switch has no case for `title`, so the title block always receives `none`. -/
def parseSchemaRest (pf : ParseFn) (selfId : Nat) (m : List (String × JValue))
    (x0 : SubSchema × ParseState) : Except PErr (SubSchema × ParseState) :=
  pBind (stepDefinitions pf selfId (getKey m KEY_DEFINITIONS) x0) (fun x1 =>
  pBind (stepId (getKey m KEY_ID) x1) (fun x2 =>
  pBind (stepTitle none x2) (fun x3 =>
  pBind (stepDescription (getKey m KEY_DESCRIPTION) x3) (fun x4 =>
  pBind (stepType (getKey m KEY_TYPE) x4) (fun x5 =>
  pBind (stepProperties pf selfId (getKey m KEY_PROPERTIES) x5) (fun x6 =>
  pBind (stepAdditionalProperties pf selfId (getKey m KEY_ADDITIONAL_PROPERTIES) x6) (fun x7 =>
  pBind (stepPatternProperties pf selfId (getKey m KEY_PATTERN_PROPERTIES) x7) (fun x8 =>
  pBind (stepDependencies pf selfId (getKey m KEY_DEPENDENCIES) x8) (fun x9 =>
  pBind (stepItems pf selfId (getKey m KEY_ITEMS) x9) (fun x10 =>
  pBind (stepAdditionalItems pf selfId (getKey m KEY_ADDITIONAL_ITEMS) x10) (fun x11 =>
  pBind (stepMultipleOf (getKey m KEY_MULTIPLE_OF) x11) (fun x12 =>
  pBind (stepMinimum (getKey m KEY_MINIMUM) x12) (fun x13 =>
  pBind (stepExclusiveMinimum (getKey m KEY_EXCLUSIVE_MINIMUM) x13) (fun x14 =>
  pBind (stepMaximum (getKey m KEY_MAXIMUM) x14) (fun x15 =>
  pBind (stepExclusiveMaximum (getKey m KEY_EXCLUSIVE_MAXIMUM) x15) (fun x16 =>
  pBind (stepMinMaxCheck x16) (fun x17 =>
  pBind (stepMinLength (getKey m KEY_MIN_LENGTH) x17) (fun x18 =>
  pBind (stepMaxLength (getKey m KEY_MAX_LENGTH) x18) (fun x19 =>
  pBind (stepLengthCheck x19) (fun x20 =>
  pBind (stepPattern (getKey m KEY_PATTERN) x20) (fun x21 =>
  pBind (stepFormat (getKey m KEY_FORMAT) x21) (fun x22 =>
  pBind (stepMinProperties (getKey m KEY_MIN_PROPERTIES) x22) (fun x23 =>
  pBind (stepMaxProperties (getKey m KEY_MAX_PROPERTIES) x23) (fun x24 =>
  pBind (stepPropertiesCheck x24) (fun x25 =>
  pBind (stepRequired (getKey m KEY_REQUIRED) x25) (fun x26 =>
  pBind (stepMinItems (getKey m KEY_MIN_ITEMS) x26) (fun x27 =>
  pBind (stepMaxItems (getKey m KEY_MAX_ITEMS) x27) (fun x28 =>
  pBind (stepUniqueItems (getKey m KEY_UNIQUE_ITEMS) x28) (fun x29 =>
  pBind (stepEnum (getKey m KEY_ENUM) x29) (fun x30 =>
  pBind (stepOneOf pf selfId (getKey m KEY_ONE_OF) x30) (fun x31 =>
  pBind (stepAnyOf pf selfId (getKey m KEY_ANY_OF) x31) (fun x32 =>
  pBind (stepAllOf pf selfId (getKey m KEY_ALL_OF) x32) (fun x33 =>
  pBind (stepNot pf selfId (getKey m KEY_NOT) x33) (fun x34 =>
  .ok x34))))))))))))))))))))))))))))))))))

/-- `parseReference` (src/schema.go lines 885-954): resolve the reference
string against the current node's base, mutate the current node's `ref`,
fetch the referenced document node, allocate the new sub-schema and register
it in the interner under `currentSchema.ref.String() + reference` **before**
recursing into the referenced node, then link `refSchema`. -/
def parseReference (ctx : ParseCtx) (pf : ParseFn) (selfId : Nat) (cur : SubSchema)
    (reference : String) (st : ParseState) : Except PErr (SubSchema × ParseState) :=
  pBind (newJsonReference reference) (fun jsonReference =>
    let newRef := if jsonReference.hasFullUrl then jsonReference
                  else cur.ref.inherits jsonReference
    let cur1 := { cur with ref := newRef }
    let docRes : Except PErr JValue :=
      match ctx.standalone with
      | some standaloneDocument => pointerGet newRef.pointer standaloneDocument
      | none =>
        match assocGet ctx.documents newRef.baseUri with
        | some fetched => pointerGet newRef.pointer fetched
        | none => .error (.referenceError newRef.baseUri)
    pBind docRes (fun refdDocumentNode =>
      if isObjB refdDocumentNode then
        let cid := st.nodes.length
        let init := { emptySubSchema with
          property := KEY_REF
          parent := some selfId
          ref := cur1.ref }
        let st1 : ParseState := {
          nodes := st.nodes ++ [init]
          refPool := (newRef.refString ++ reference, cid) :: st.refPool }
        pBind (pf refdDocumentNode true cid init st1)
          (fun r =>
            .ok ({ cur1 with refSchema := some cid },
                 { nodes := r.2.nodes.set cid r.1
                   refPool := r.2.refPool }))
      else .error (.mustBeOfType STRING_SCHEMA TYPE_OBJECT)))

/-- `parseSchema` (src/schema.go lines 117-883).  `fuel` bounds the depth of
the recursion and decreases at every recursive call; the Go function has no
such bound, so an input on which every fuel is exhausted is an input on
which the source recurses forever.  The root node is the one at arena index
0 (`currentSchema == d.rootSchema`, line 131).  When the `$ref` interner
lookup misses, the function returns the result of `parseReference` directly
(line 265), skipping every later keyword block; on a hit it records the
interned node and falls through to the remaining blocks. -/
def parseSchema (ctx : ParseCtx) :
    Nat → JValue → Bool → Nat → SubSchema → ParseState → Except PErr (SubSchema × ParseState)
  | 0, _, _, _, _, _ => .error .outOfFuel
  | Nat.succ fuel, documentNode, typeChecked, selfId, cur0, st0 =>
    let pf : ParseFn := fun d tc i n s => parseSchema ctx fuel d tc i n s
    if !typeChecked && !(isObjB documentNode) then
      .error (.invalidType TYPE_OBJECT STRING_SCHEMA)
    else
      match documentNode with
      | .obj m =>
        let cur := if selfId == 0 then { cur0 with ref := ctx.documentReference } else cur0
        pBind (stepSchemaKw (getKey m KEY_SCHEMA) cur) (fun cur1 =>
          match getKey m KEY_REF with
          | some (.str k) =>
            match poolGet (cur1.ref.refString ++ k) st0.refPool with
            | some sch => parseSchemaRest pf selfId m ({ cur1 with refSchema := some sch }, st0)
            | none => parseReference ctx pf selfId cur1 k st0
          | some _ => .error (.invalidType TYPE_STRING KEY_REF)
          | none => parseSchemaRest pf selfId m (cur1, st0))
      | _ => .error (.invalidType TYPE_OBJECT STRING_SCHEMA)

/-! ## The public entry points (spec section 6.4). -/

/-- The compiled schema (`type Schema struct`, src/schema.go lines 95-100):
document reference, root node, and the arena and interner produced by the
compile. -/
structure Schema where
  documentReference : JsonRef
  rootId : Nat
  nodes : List SubSchema
  refPool : List (String × Nat)
  standalone : Option JValue

/-- `NewSchema` (src/schema.go lines 59-93) for the inline-document loader
(`ref.String() == "#"`): install the document as the standalone document,
allocate the root sub-schema with `property = "(root)"` and parse into it
(`d.parse`, lines 102-105).  `fuel` bounds the recursion depth of the
embedding. -/
def NewSchema (fuel : Nat) (doc : JValue) : Except PErr Schema :=
  let docRef : JsonRef := { baseUri := "", pointer := [], hasFullUrl := false }
  let ctx : ParseCtx := { documentReference := docRef, standalone := some doc, documents := [] }
  let rootInit := { emptySubSchema with property := STRING_ROOT_SCHEMA_PROPERTY }
  let st0 : ParseState := { nodes := [rootInit], refPool := [] }
  match parseSchema ctx fuel doc false 0 rootInit st0 with
  | .ok (rootFinal, st1) =>
    .ok { documentReference := docRef
          rootId := 0
          nodes := st1.nodes.set 0 rootFinal
          refPool := st1.refPool
          standalone := some doc }
  | .error e => .error e

/-- `Schema.SetRootSchemaName` (src/schema.go lines 107-109): overwrite the
root sub-schema's `property` after compilation. -/
def Schema.SetRootSchemaName (d : Schema) (name : String) : Schema :=
  match d.nodes.get? d.rootId with
  | some n => { d with nodes := d.nodes.set d.rootId { n with property := name } }
  | none => d

/-! ## Observation helpers used by the theorems. -/

/-- Whether a compile result is a success. -/
def isOkB {α : Type} : Except PErr α → Bool
  | .ok _ => true
  | .error _ => false

/-- The node at an arena index of a successfully compiled schema. -/
def nodeAt (r : Except PErr Schema) (i : Nat) : Option SubSchema :=
  match r with
  | .ok d => d.nodes.get? i
  | .error _ => none

/-- The root node of a successfully compiled schema. -/
def rootNodeOf (r : Except PErr Schema) : Option SubSchema :=
  match r with
  | .ok d => d.nodes.get? d.rootId
  | .error _ => none

/-- A projection of a root-node field. -/
def rootField {α : Type} (f : SubSchema → α) (r : Except PErr Schema) : Option α :=
  (rootNodeOf r).map f

/-- The `refSchema` link of the node at an arena index. -/
def refSchemaAt (r : Except PErr Schema) (i : Nat) : Option Nat :=
  (nodeAt r i).bind (fun n => n.refSchema)

/-- Number of allocated sub-schema nodes of a compile result. -/
def nodeCount (r : Except PErr Schema) : Nat :=
  match r with
  | .ok d => d.nodes.length
  | .error _ => 0

/-- The schema of a successful compile; used to apply post-compile
operations in closed statements. -/
def schemaOf (r : Except PErr Schema) : Schema :=
  match r with
  | .ok d => d
  | .error _ =>
    { documentReference := { baseUri := "", pointer := [], hasFullUrl := false }
      rootId := 0
      nodes := []
      refPool := []
      standalone := none }

/-! ## Concrete schema documents used by the claims. -/

/-- `{"allOf": 3}` — a non-sequence `allOf` value. -/
def allOfNumberDoc : JValue := .obj [(KEY_ALL_OF, .num 3)]

/-- `{"dependencies": {"a": []}}` — a property dependency with an empty
list. -/
def emptyDependencyDoc : JValue := .obj [(KEY_DEPENDENCIES, .obj [("a", .arr [])])]

/-- `{"minItems": 5, "maxItems": 2}` — item bounds with min above max. -/
def minMaxItemsDoc : JValue := .obj [(KEY_MIN_ITEMS, .num 5), (KEY_MAX_ITEMS, .num 2)]

/-- `{"type": ["string", "string"]}` — a duplicated type name. -/
def duplicateTypeDoc : JValue := .obj [(KEY_TYPE, .arr [.str "string", .str "string"])]

/-- `{"title": 123}` — a non-string title. -/
def numberTitleDoc : JValue := .obj [(KEY_TITLE, .num 123)]

/-- `{"exclusiveMinimum": true}` — exclusiveMinimum without minimum. -/
def exclusiveMinimumDoc : JValue := .obj [(KEY_EXCLUSIVE_MINIMUM, .bool true)]

/-- `{"$ref": "#/x", "x": {}, "exclusiveMinimum": true}` — the boolean
`exclusiveMinimum` without `minimum` sits next to a first-encounter `$ref`. -/
def refExclusiveMinimumDoc : JValue :=
  .obj [(KEY_REF, .str "#/x"), ("x", .obj []), (KEY_EXCLUSIVE_MINIMUM, .bool true)]

/-- `{"$ref": "#/x", "x": {}, "type": 123}` — an invalid `type` value next to
a first-encounter `$ref`. -/
def refBadSiblingDoc : JValue :=
  .obj [(KEY_REF, .str "#/x"), ("x", .obj []), (KEY_TYPE, .num 123)]

/-- `{"$ref": "#", "type": 123}` — a self-reference; on the second pass the
interner lookup hits and the sibling keywords are processed. -/
def refSelfBadSiblingDoc : JValue := .obj [(KEY_REF, .str "#"), (KEY_TYPE, .num 123)]

/-- `{"properties": {"a": {"$ref": "#/x"}, "b": {"$ref": "#/x"}}, "x": {}}` —
two sibling nodes whose `$ref` strings resolve to the same target. -/
def siblingRefsDoc : JValue :=
  .obj [(KEY_PROPERTIES, .obj [("a", .obj [(KEY_REF, .str "#/x")]),
                               ("b", .obj [(KEY_REF, .str "#/x")])]),
        ("x", .obj [])]

/-- The document node `{"$ref": "#/definitions/b"}` (definition `a`). -/
def cycleNodeA : JValue := .obj [(KEY_REF, .str "#/definitions/b")]

/-- The document node `{"$ref": "#/definitions/a"}` (definition `b`). -/
def cycleNodeB : JValue := .obj [(KEY_REF, .str "#/definitions/a")]

/-- A two-node reference cycle: the root's `$ref` resolves to node `a`, whose
`$ref` resolves to node `b`, whose `$ref` resolves back to node `a`. -/
def twoNodeCycleDoc : JValue :=
  .obj [(KEY_REF, .str "#/definitions/a"),
        (KEY_DEFINITIONS, .obj [("a", cycleNodeA), ("b", cycleNodeB)])]

/-- An empty schema document, compiled to obtain a post-compile `Schema`. -/
def emptySchemaDoc : JValue := .obj []

/-- The resolved reference of definition `a` of the two-node cycle. -/
def cycleRefA : JsonRef := { baseUri := "", pointer := ["definitions", "a"], hasFullUrl := false }

/-- The resolved reference of definition `b` of the two-node cycle. -/
def cycleRefB : JsonRef := { baseUri := "", pointer := ["definitions", "b"], hasFullUrl := false }

/-- The compile context `NewSchema` builds for the two-node cycle document:
inline loader, so the document reference is `#` and the document itself is
the standalone document. -/
def twoNodeCycleCtx : ParseCtx :=
  { documentReference := { baseUri := "", pointer := [], hasFullUrl := false }
    standalone := some twoNodeCycleDoc
    documents := [] }

/-- The root sub-schema's `property` field of a compiled schema. -/
def schemaRootProperty (d : Schema) : Option String :=
  (d.nodes.get? d.rootId).map (fun nd => nd.property)

/-! # Theorems

General lemmas about the pipeline, followed by one theorem per claim. -/

theorem pBind_ok_elim {α β : Type} {x : Except PErr α} {f : α → Except PErr β} {b : β}
    (h : pBind x f = .ok b) : ∃ a, x = .ok a ∧ f a = .ok b := by
  cases x with
  | ok a => exact ⟨a, rfl, h⟩
  | error e => simp [pBind] at h

/-! Preservation of the `minimum` field by every keyword block that precedes
the `exclusiveMinimum` block in the source order (src/schema.go lines
240-552): none of them writes `minimum`. -/

theorem stepSchemaKw_minimum {v? : Option JValue} {c c' : SubSchema}
    (h : stepSchemaKw v? c = .ok c') : c'.minimum = c.minimum := by
  cases v? with
  | none => simp [stepSchemaKw] at h; subst h; rfl
  | some v =>
    cases v <;> simp [stepSchemaKw] at h
    obtain ⟨r, _, h2⟩ := pBind_ok_elim h
    cases h2; rfl

theorem definitionsLoop_minimum {pf : ParseFn} {selfId : Nat} :
    ∀ {l : List (String × JValue)} {x y : SubSchema × ParseState},
    definitionsLoop pf selfId l x = .ok y → y.1.minimum = x.1.minimum := by
  intro l
  induction l with
  | nil => intro x y h; simp [definitionsLoop] at h; subst h; rfl
  | cons hd tl ih =>
    intro x y h
    obtain ⟨cur, st⟩ := x
    obtain ⟨dk, dv⟩ := hd
    simp only [definitionsLoop] at h
    by_cases hobj : isObjB dv = true
    · rw [if_pos hobj] at h
      obtain ⟨r, _, h2⟩ := pBind_ok_elim h
      have h3 := ih h2
      exact h3
    · rw [if_neg hobj] at h; cases h

theorem stepDefinitions_minimum {pf : ParseFn} {selfId : Nat} {v? : Option JValue}
    {x y : SubSchema × ParseState}
    (h : stepDefinitions pf selfId v? x = .ok y) : y.1.minimum = x.1.minimum := by
  cases v? with
  | none => simp [stepDefinitions] at h; subst h; rfl
  | some v =>
    cases v <;> simp only [stepDefinitions] at h <;> try cases h
    have h3 := definitionsLoop_minimum h
    exact h3

theorem stepId_minimum {v? : Option JValue} {x y : SubSchema × ParseState}
    (h : stepId v? x = .ok y) : y.1.minimum = x.1.minimum := by
  cases v? with
  | none => simp [stepId] at h; subst h; rfl
  | some v => cases v <;> simp [stepId] at h; subst h; rfl

theorem stepTitle_minimum {v? : Option JValue} {x y : SubSchema × ParseState}
    (h : stepTitle v? x = .ok y) : y.1.minimum = x.1.minimum := by
  cases v? with
  | none => simp [stepTitle] at h; subst h; rfl
  | some v => cases v <;> simp [stepTitle] at h; subst h; rfl

theorem stepDescription_minimum {v? : Option JValue} {x y : SubSchema × ParseState}
    (h : stepDescription v? x = .ok y) : y.1.minimum = x.1.minimum := by
  cases v? with
  | none => simp [stepDescription] at h; subst h; rfl
  | some v => cases v <;> simp [stepDescription] at h; subst h; rfl

theorem stepType_minimum {v? : Option JValue} {x y : SubSchema × ParseState}
    (h : stepType v? x = .ok y) : y.1.minimum = x.1.minimum := by
  cases v? with
  | none => simp [stepType] at h; subst h; rfl
  | some v =>
    cases v <;> simp [stepType] at h
    · obtain ⟨ts, _, h2⟩ := pBind_ok_elim h
      cases h2; rfl
    · obtain ⟨ts, _, h2⟩ := pBind_ok_elim h
      cases h2; rfl

theorem propertiesLoop_minimum {pf : ParseFn} {selfId : Nat} :
    ∀ {l : List (String × JValue)} {x y : SubSchema × ParseState},
    propertiesLoop pf selfId l x = .ok y → y.1.minimum = x.1.minimum := by
  intro l
  induction l with
  | nil => intro x y h; simp [propertiesLoop] at h; subst h; rfl
  | cons hd tl ih =>
    intro x y h
    obtain ⟨cur, st⟩ := x
    obtain ⟨k, v⟩ := hd
    simp only [propertiesLoop] at h
    obtain ⟨r, _, h2⟩ := pBind_ok_elim h
    have h3 := ih h2
    exact h3

theorem stepProperties_minimum {pf : ParseFn} {selfId : Nat} {v? : Option JValue}
    {x y : SubSchema × ParseState}
    (h : stepProperties pf selfId v? x = .ok y) : y.1.minimum = x.1.minimum := by
  cases v? with
  | none => simp [stepProperties] at h; subst h; rfl
  | some v =>
    cases v <;> simp only [stepProperties, parseProperties] at h <;> try cases h
    exact propertiesLoop_minimum h

theorem stepAdditionalProperties_minimum {pf : ParseFn} {selfId : Nat} {v? : Option JValue}
    {x y : SubSchema × ParseState}
    (h : stepAdditionalProperties pf selfId v? x = .ok y) : y.1.minimum = x.1.minimum := by
  cases v? with
  | none => simp [stepAdditionalProperties] at h; subst h; rfl
  | some v =>
    cases v <;> simp only [stepAdditionalProperties] at h <;> try cases h
    · rfl
    · obtain ⟨r, _, h2⟩ := pBind_ok_elim h
      cases h2; rfl

theorem patternPropertiesLoop_minimum {pf : ParseFn} {selfId : Nat} :
    ∀ {l : List (String × JValue)} {x y : SubSchema × ParseState},
    patternPropertiesLoop pf selfId l x = .ok y → y.1.minimum = x.1.minimum := by
  intro l
  induction l with
  | nil => intro x y h; simp [patternPropertiesLoop] at h; subst h; rfl
  | cons hd tl ih =>
    intro x y h
    obtain ⟨cur, st⟩ := x
    obtain ⟨k, v⟩ := hd
    simp only [patternPropertiesLoop, regexpValidB, if_true] at h
    obtain ⟨r, _, h2⟩ := pBind_ok_elim h
    have h3 := ih h2
    exact h3

theorem stepPatternProperties_minimum {pf : ParseFn} {selfId : Nat} {v? : Option JValue}
    {x y : SubSchema × ParseState}
    (h : stepPatternProperties pf selfId v? x = .ok y) : y.1.minimum = x.1.minimum := by
  cases v? with
  | none => simp [stepPatternProperties] at h; subst h; rfl
  | some v =>
    cases v <;> simp only [stepPatternProperties] at h <;> try cases h
    rename_i m
    by_cases hm : m.length > 0
    · rw [if_pos hm] at h
      have h3 := patternPropertiesLoop_minimum h
      exact h3
    · rw [if_neg hm] at h; cases h; rfl

theorem dependencyStringsLoop_minimum {k : String} :
    ∀ {l : List JValue} {acc : List String} {cur cur' : SubSchema},
    dependencyStringsLoop k l acc cur = .ok cur' → cur'.minimum = cur.minimum := by
  intro l
  induction l with
  | nil => intro acc cur cur' h; simp [dependencyStringsLoop] at h; subst h; rfl
  | cons hd tl ih =>
    intro acc cur cur' h
    cases hd <;> simp only [dependencyStringsLoop] at h <;> try cases h
    have h3 := ih h
    exact h3

theorem dependenciesLoop_minimum {pf : ParseFn} {selfId : Nat} :
    ∀ {l : List (String × JValue)} {x y : SubSchema × ParseState},
    dependenciesLoop pf selfId l x = .ok y → y.1.minimum = x.1.minimum := by
  intro l
  induction l with
  | nil => intro x y h; simp [dependenciesLoop] at h; subst h; rfl
  | cons hd tl ih =>
    intro x y h
    obtain ⟨cur, st⟩ := x
    obtain ⟨k, v⟩ := hd
    cases v <;> simp only [dependenciesLoop] at h <;> try cases h
    · rename_i values
      obtain ⟨cur1, hds, h2⟩ := pBind_ok_elim h
      have h3 := ih h2
      have h4 := dependencyStringsLoop_minimum hds
      rw [h3, h4]
    · rename_i m
      obtain ⟨r, _, h2⟩ := pBind_ok_elim h
      have h3 := ih h2
      exact h3

theorem stepDependencies_minimum {pf : ParseFn} {selfId : Nat} {v? : Option JValue}
    {x y : SubSchema × ParseState}
    (h : stepDependencies pf selfId v? x = .ok y) : y.1.minimum = x.1.minimum := by
  cases v? with
  | none => simp [stepDependencies] at h; subst h; rfl
  | some v =>
    cases v <;> simp only [stepDependencies, parseDependencies] at h <;> try cases h
    have h3 := dependenciesLoop_minimum h
    exact h3

theorem itemsLoop_minimum {pf : ParseFn} {selfId : Nat} :
    ∀ {l : List JValue} {x y : SubSchema × ParseState},
    itemsLoop pf selfId l x = .ok y → y.1.minimum = x.1.minimum := by
  intro l
  induction l with
  | nil => intro x y h; simp [itemsLoop] at h; subst h; rfl
  | cons hd tl ih =>
    intro x y h
    obtain ⟨cur, st⟩ := x
    simp only [itemsLoop] at h
    by_cases hobj : isObjB hd = true
    · rw [if_pos hobj] at h
      obtain ⟨r, _, h2⟩ := pBind_ok_elim h
      have h3 := ih h2
      exact h3
    · rw [if_neg hobj] at h; cases h

theorem stepItems_minimum {pf : ParseFn} {selfId : Nat} {v? : Option JValue}
    {x y : SubSchema × ParseState}
    (h : stepItems pf selfId v? x = .ok y) : y.1.minimum = x.1.minimum := by
  cases v? with
  | none => simp [stepItems] at h; subst h; rfl
  | some v =>
    cases v <;> simp only [stepItems] at h <;> try cases h
    · exact itemsLoop_minimum h
    · obtain ⟨r, _, h2⟩ := pBind_ok_elim h
      cases h2; rfl

theorem stepAdditionalItems_minimum {pf : ParseFn} {selfId : Nat} {v? : Option JValue}
    {x y : SubSchema × ParseState}
    (h : stepAdditionalItems pf selfId v? x = .ok y) : y.1.minimum = x.1.minimum := by
  cases v? with
  | none => simp [stepAdditionalItems] at h; subst h; rfl
  | some v =>
    cases v <;> simp only [stepAdditionalItems] at h <;> try cases h
    · rfl
    · obtain ⟨r, _, h2⟩ := pBind_ok_elim h
      cases h2; rfl

theorem stepMultipleOf_minimum {v? : Option JValue} {x y : SubSchema × ParseState}
    (h : stepMultipleOf v? x = .ok y) : y.1.minimum = x.1.minimum := by
  cases v? with
  | none => simp [stepMultipleOf] at h; subst h; rfl
  | some v =>
    cases hn : mustBeNumber v with
    | none => simp only [stepMultipleOf, hn] at h; cases h
    | some q =>
      simp only [stepMultipleOf, hn] at h
      by_cases hq : q ≤ 0
      · rw [if_pos hq] at h; cases h
      · rw [if_neg hq] at h; cases h; rfl

/-- If a node's `minimum` is unset, its object has no `minimum` key, and its
`exclusiveMinimum` key holds a boolean, then the keyword chain after the
`$ref` block cannot succeed: the `exclusiveMinimum` block (src/schema.go
lines 554-569) necessarily fails. -/
theorem parseSchemaRest_exclMin_never_ok {pf : ParseFn} {selfId : Nat}
    {m : List (String × JValue)} {x0 : SubSchema × ParseState} {b : Bool}
    (hx : x0.1.minimum = none)
    (hexcl : getKey m KEY_EXCLUSIVE_MINIMUM = some (.bool b))
    (hmin : getKey m KEY_MINIMUM = none) :
    ∀ y, parseSchemaRest pf selfId m x0 ≠ .ok y := by
  intro y h
  simp only [parseSchemaRest] at h
  obtain ⟨x1, h1, h⟩ := pBind_ok_elim h
  obtain ⟨x2, h2, h⟩ := pBind_ok_elim h
  obtain ⟨x3, h3, h⟩ := pBind_ok_elim h
  obtain ⟨x4, h4, h⟩ := pBind_ok_elim h
  obtain ⟨x5, h5, h⟩ := pBind_ok_elim h
  obtain ⟨x6, h6, h⟩ := pBind_ok_elim h
  obtain ⟨x7, h7, h⟩ := pBind_ok_elim h
  obtain ⟨x8, h8, h⟩ := pBind_ok_elim h
  obtain ⟨x9, h9, h⟩ := pBind_ok_elim h
  obtain ⟨x10, h10, h⟩ := pBind_ok_elim h
  obtain ⟨x11, h11, h⟩ := pBind_ok_elim h
  obtain ⟨x12, h12, h⟩ := pBind_ok_elim h
  obtain ⟨x13, h13, h⟩ := pBind_ok_elim h
  obtain ⟨x14, h14, h⟩ := pBind_ok_elim h
  rw [hmin] at h13
  simp only [stepMinimum] at h13
  have hx12 : x12.1.minimum = none := by
    rw [stepMultipleOf_minimum h12, stepAdditionalItems_minimum h11, stepItems_minimum h10,
        stepDependencies_minimum h9, stepPatternProperties_minimum h8,
        stepAdditionalProperties_minimum h7, stepProperties_minimum h6, stepType_minimum h5,
        stepDescription_minimum h4, stepTitle_minimum h3, stepId_minimum h2,
        stepDefinitions_minimum h1]
    exact hx
  have hx13 : x13.1.minimum = none := by cases h13; exact hx12
  rw [hexcl] at h14
  simp only [stepExclusiveMinimum, hx13] at h14
  exact Except.noConfusion h14

/-- If a schema object has no `$ref` key, a boolean `exclusiveMinimum` and no
`minimum`, `parseSchema` cannot return successfully on it, for any fuel,
type-checked flag, node or state whose current `minimum` is unset. -/
theorem parseSchema_exclMin_never_ok (ctx : ParseCtx) :
    ∀ (fuel : Nat) (m : List (String × JValue)) (tc : Bool) (selfId : Nat)
      (cur : SubSchema) (st : ParseState) (b : Bool),
    cur.minimum = none →
    getKey m KEY_REF = none →
    getKey m KEY_EXCLUSIVE_MINIMUM = some (.bool b) →
    getKey m KEY_MINIMUM = none →
    ∀ p, parseSchema ctx fuel (.obj m) tc selfId cur st ≠ .ok p := by
  intro fuel m tc selfId cur st b hcur href hexcl hmin p h
  cases fuel with
  | zero => simp [parseSchema] at h
  | succ n =>
    simp only [parseSchema, isObjB, Bool.not_true, Bool.and_false, Bool.false_eq_true,
      if_false] at h
    obtain ⟨cur1, hkw, h2⟩ := pBind_ok_elim h
    rw [href] at h2
    have hc1 : cur1.minimum = none := by
      rw [stepSchemaKw_minimum hkw]
      split <;> exact hcur
    exact parseSchemaRest_exclMin_never_ok hc1 hexcl hmin p h2
/-! General helper lemmas used in several claim proofs. -/

theorem isObjB_obj (m : List (String × JValue)) : isObjB (.obj m) = true := rfl

theorem get?_set_self {α : Type} :
    ∀ (l : List α) (i : Nat) (a : α), (l.set i a).get? i = (l.get? i).map (fun _ => a) := by
  intro l
  induction l with
  | nil => intro i a; cases i <;> rfl
  | cons hd tl ih =>
    intro i a
    cases i with
    | zero => rfl
    | succ j => exact ih j a

theorem get?_set_other {α : Type} :
    ∀ (l : List α) (i j : Nat), i ≠ j → ∀ a : α, (l.set i a).get? j = l.get? j := by
  intro l
  induction l with
  | nil => intro i j _ a; cases i <;> rfl
  | cons hd tl ih =>
    intro i j hij a
    cases i with
    | zero =>
      cases j with
      | zero => exact absurd rfl hij
      | succ j2 => rfl
    | succ i2 =>
      cases j with
      | zero => rfl
      | succ j2 => exact ih i2 j2 (fun he => hij (by rw [he])) a

/-- The recursion of the two-node reference cycle never comes back: as long
as the interner never holds the keys the `$ref` blocks of nodes `a` and `b`
look up (`"#/definitions/a" + "#/definitions/b"` and
`"#/definitions/b" + "#/definitions/a"`), parsing node `a` re-registers only
`"#/definitions/b" + "#/definitions/b"` and recurses into node `b`, and
symmetrically, so every amount of fuel is exhausted.  The mismatch is that
the lookup key is built from the node's base reference *before* resolution
(src/schema.go line 262) while registration keys are built *after*
resolution (line 943). -/
theorem cycle_loop : ∀ fuel : Nat,
    (∀ (selfId : Nat) (cur : SubSchema) (st : ParseState),
      selfId ≠ 0 → st.nodes ≠ [] → cur.ref = cycleRefA →
      poolGet "#/definitions/a#/definitions/b" st.refPool = none →
      poolGet "#/definitions/b#/definitions/a" st.refPool = none →
      parseSchema twoNodeCycleCtx fuel cycleNodeA true selfId cur st = .error .outOfFuel) ∧
    (∀ (selfId : Nat) (cur : SubSchema) (st : ParseState),
      selfId ≠ 0 → st.nodes ≠ [] → cur.ref = cycleRefB →
      poolGet "#/definitions/a#/definitions/b" st.refPool = none →
      poolGet "#/definitions/b#/definitions/a" st.refPool = none →
      parseSchema twoNodeCycleCtx fuel cycleNodeB true selfId cur st = .error .outOfFuel) := by
  intro fuel
  induction fuel with
  | zero =>
    constructor <;> (intro selfId cur st h1 h2 h3 h4 h5; rfl)
  | succ n ih =>
    have eA : JsonRef.refString { baseUri := "", pointer := ["definitions", "a"], hasFullUrl := false } = "#/definitions/a" := rfl
    have eB : JsonRef.refString { baseUri := "", pointer := ["definitions", "b"], hasFullUrl := false } = "#/definitions/b" := rfl
    have eRefB : newJsonReference "#/definitions/b" = .ok { baseUri := "", pointer := ["definitions", "b"], hasFullUrl := false } := rfl
    have eRefA : newJsonReference "#/definitions/a" = .ok { baseUri := "", pointer := ["definitions", "a"], hasFullUrl := false } := rfl
    have eGetB : pointerGet ["definitions", "b"] twoNodeCycleDoc = .ok cycleNodeB := rfl
    have eGetA : pointerGet ["definitions", "a"] twoNodeCycleDoc = .ok cycleNodeA := rfl
    have eObjB : isObjB cycleNodeB = true := rfl
    have eObjA : isObjB cycleNodeA = true := rfl
    have eKab : ("#/definitions/a" ++ "#/definitions/b" : String) = "#/definitions/a#/definitions/b" := rfl
    have eKba : ("#/definitions/b" ++ "#/definitions/a" : String) = "#/definitions/b#/definitions/a" := rfl
    have eKbb : ("#/definitions/b" ++ "#/definitions/b" : String) = "#/definitions/b#/definitions/b" := rfl
    have eKaa : ("#/definitions/a" ++ "#/definitions/a" : String) = "#/definitions/a#/definitions/a" := rfl
    have eCtx : twoNodeCycleCtx.standalone = some twoNodeCycleDoc := rfl
    constructor
    · intro selfId cur st h1 h2 h3 h4 h5
      have hid : (selfId == 0) = false := beq_eq_false_iff_ne.mpr h1
      have hlen : ¬ (st.nodes.length = 0) := fun hl => h2 (List.length_eq_zero.mp hl)
      simp [parseSchema, cycleNodeA, hid, getKey, stepSchemaKw, pBind,
        parseReference, JsonRef.inherits, h3, h4, h5, hlen, KEY_SCHEMA, KEY_REF,
        cycleRefA, cycleRefB, eA, eB, eRefB, eGetB, eObjB,
        eKab, eKbb, poolGet, eCtx, ih.2]
    · intro selfId cur st h1 h2 h3 h4 h5
      have hid : (selfId == 0) = false := beq_eq_false_iff_ne.mpr h1
      have hlen : ¬ (st.nodes.length = 0) := fun hl => h2 (List.length_eq_zero.mp hl)
      simp [parseSchema, cycleNodeB, hid, getKey, stepSchemaKw, pBind,
        parseReference, JsonRef.inherits, h3, h4, h5, hlen, KEY_SCHEMA, KEY_REF,
        cycleRefA, cycleRefB, eA, eB, eRefA, eGetA, eObjA,
        eKba, eKaa, poolGet, eCtx, ih.1]

/-! ## The claims. -/

/-- C1: the claim states that a schema in which node A's `$ref` resolves to
node B and node B's `$ref` resolves back to A compiles in finite time with
`A.refSchema = B` and `B.refSchema = A`, guaranteed by the pre-registration
in `parseReference`.  On the embedded code this fails: for the concrete
two-node cycle, the compile exhausts every amount of fuel — the recursion
`parseSchema → parseReference → parseSchema` never returns, because the
interner lookup key (pre-resolution base + ref string, src/schema.go line
262) never equals any registration key (post-resolution base + ref string,
line 943) when the two nodes are distinct.  Pre-registration only
terminates self-cycles. -/
theorem C1_two_node_cycle_diverges :
    ∀ fuel : Nat, NewSchema fuel twoNodeCycleDoc = .error .outOfFuel := by
  intro fuel
  cases fuel with
  | zero => rfl
  | succ n =>
    have hloop := (cycle_loop n).1
    have hrec : parseSchema twoNodeCycleCtx (Nat.succ n) twoNodeCycleDoc false 0
        { emptySubSchema with property := STRING_ROOT_SCHEMA_PROPERTY }
        { nodes := [{ emptySubSchema with property := STRING_ROOT_SCHEMA_PROPERTY }], refPool := [] }
        = .error .outOfFuel := by
      have eCtx : twoNodeCycleCtx.standalone = some twoNodeCycleDoc := rfl
      have eDR : twoNodeCycleCtx.documentReference
          = { baseUri := "", pointer := [], hasFullUrl := false } := rfl
      have eRootStr : JsonRef.refString { baseUri := "", pointer := [], hasFullUrl := false } = "#" := rfl
      have eA : JsonRef.refString { baseUri := "", pointer := ["definitions", "a"], hasFullUrl := false } = "#/definitions/a" := rfl
      have eRefA : newJsonReference "#/definitions/a" = .ok { baseUri := "", pointer := ["definitions", "a"], hasFullUrl := false } := rfl
      have eObjA : isObjB cycleNodeA = true := rfl
      have e1 : ("#" ++ "#/definitions/a" : String) = "##/definitions/a" := rfl
      have eKaa : ("#/definitions/a" ++ "#/definitions/a" : String) = "#/definitions/a#/definitions/a" := rfl
      simp [parseSchema, twoNodeCycleDoc, getKey, stepSchemaKw, pBind, parseReference,
        JsonRef.inherits, poolGet, pointerGet, KEY_SCHEMA, KEY_REF, KEY_DEFINITIONS,
        cycleRefA, cycleRefB, eCtx, eDR, eRootStr, eA, eRefA, eObjA, isObjB_obj, e1, eKaa, hloop]
    simp only [NewSchema]
    rw [show ({ documentReference := { baseUri := "", pointer := [], hasFullUrl := false }
                standalone := some twoNodeCycleDoc
                documents := [] } : ParseCtx) = twoNodeCycleCtx from rfl]
    rw [hrec]

/-- C2: the claim states that two sub-schema occurrences compiled from the
same (base URI, fragment) reference share one allocated node.  On the
embedded code this fails: compiling
`{"properties": {"a": {"$ref": "#/x"}, "b": {"$ref": "#/x"}}, "x": {}}`
allocates five nodes; the property children are nodes 1 and 3, their
`refSchema` links are the *distinct* nodes 2 and 4, and the interner ends up
holding two entries for the same fully-qualified key `"#/x#/x"`, the second
shadowing the first.  The interner lookup key is built from the
pre-resolution base (src/schema.go line 262) while the registration key uses
the post-resolution base (line 943), so sibling occurrences never hit. -/
theorem C2_same_reference_two_allocations :
    nodeCount (NewSchema 3 siblingRefsDoc) = 5 ∧
    rootField (fun nd => nd.propertiesChildren) (NewSchema 3 siblingRefsDoc) = some [1, 3] ∧
    refSchemaAt (NewSchema 3 siblingRefsDoc) 1 = some 2 ∧
    refSchemaAt (NewSchema 3 siblingRefsDoc) 3 = some 4 ∧
    (schemaOf (NewSchema 3 siblingRefsDoc)).refPool = [("#/x#/x", 4), ("#/x#/x", 2)] :=
  ⟨rfl, rfl, rfl, rfl, rfl⟩

/-- C3 counterexample: the claim states that when `$ref` is present the
compiler still processes all the other recognized keywords on the same node.
Refuted at `{"$ref": "#/x", "x": {}, "type": 123}`: a numeric `type` value
must fail the `type` block, yet compilation succeeds and the node's type set
stays empty — on a first-encounter `$ref` the other keywords are never
processed (src/schema.go line 265 returns from `parseSchema`). -/
theorem C3_counterexample :
    isOkB (NewSchema 3 refBadSiblingDoc) = true ∧
    rootField (fun nd => nd.types) (NewSchema 3 refBadSiblingDoc) = some [] :=
  ⟨rfl, rfl⟩

/-- C3 (amended): sibling keywords of `$ref` are processed only when the
interner lookup hits (an already-begun reference); on the first encounter of
a reference, `parseSchema` returns the result of `parseReference` directly
and skips every remaining keyword block on that node.  Concretely,
`{"$ref": "#", "type": 123}` fails with the `type` invalid-type error —
the self-reference is interned on the first pass, so the second pass hits
the interner and does process `type` — while
`{"$ref": "#/x", "x": {}, "type": 123}` compiles successfully. -/
theorem C3_ref_siblings_processed_only_on_interner_hit :
    NewSchema 3 refSelfBadSiblingDoc
      = .error (.invalidType (TYPE_STRING ++ "/" ++ STRING_ARRAY_OF_STRINGS) KEY_TYPE) ∧
    isOkB (NewSchema 3 refBadSiblingDoc) = true :=
  ⟨rfl, rfl⟩

/-- C4 counterexample: the claim states that no public operation mutates any
sub-schema node after `NewSchema` returns.  Refuted by
`SetRootSchemaName`: compiling `{}` yields a root node whose `property` is
`"(root)"`, and applying `SetRootSchemaName "renamed"` yields a graph whose
root node's `property` is `"renamed"`. -/
theorem C4_counterexample :
    schemaRootProperty (schemaOf (NewSchema 1 emptySchemaDoc)) = some "(root)" ∧
    schemaRootProperty ((schemaOf (NewSchema 1 emptySchemaDoc)).SetRootSchemaName "renamed")
      = some "renamed" ∧
    ("renamed" : String) ≠ "(root)" :=
  ⟨rfl, rfl, by decide⟩

/-- C4 (amended): `Schema.SetRootSchemaName` (src/schema.go lines 107-109)
is the one public operation that mutates the compiled graph, and it changes
exactly the root node's `property` field: every other node, and the
document reference and interner, are untouched. -/
theorem C4_set_root_name_mutates_only_root_property (d : Schema) (name : String) :
    (d.SetRootSchemaName name).nodes.get? d.rootId
      = (d.nodes.get? d.rootId).map (fun nd => { nd with property := name }) ∧
    (∀ i, i ≠ d.rootId → (d.SetRootSchemaName name).nodes.get? i = d.nodes.get? i) ∧
    (d.SetRootSchemaName name).documentReference = d.documentReference ∧
    (d.SetRootSchemaName name).refPool = d.refPool := by
  cases hroot : d.nodes.get? d.rootId with
  | none =>
    have hd : d.SetRootSchemaName name = d := by
      unfold Schema.SetRootSchemaName
      rw [hroot]
    rw [hd, hroot]
    exact ⟨rfl, fun i _ => rfl, rfl, rfl⟩
  | some nd =>
    have hd : d.SetRootSchemaName name
        = { d with nodes := d.nodes.set d.rootId { nd with property := name } } := by
      unfold Schema.SetRootSchemaName
      rw [hroot]
    rw [hd]
    refine ⟨?_, ?_, rfl, rfl⟩
    · show (d.nodes.set d.rootId { nd with property := name }).get? d.rootId = _
      rw [get?_set_self, hroot]
      rfl
    · intro i hi
      exact get?_set_other d.nodes d.rootId i (fun he => hi he.symm) _

/-- C4 witness: the amended statement applied to the compiled empty schema,
renaming to `"renamed"` and checking node index 5 as the untouched index. -/
theorem C4_set_root_name_witness :
    ((schemaOf (NewSchema 1 emptySchemaDoc)).SetRootSchemaName "renamed").nodes.get?
        (schemaOf (NewSchema 1 emptySchemaDoc)).rootId
      = ((schemaOf (NewSchema 1 emptySchemaDoc)).nodes.get?
          (schemaOf (NewSchema 1 emptySchemaDoc)).rootId).map
          (fun nd => { nd with property := "renamed" }) ∧
    ((schemaOf (NewSchema 1 emptySchemaDoc)).SetRootSchemaName "renamed").nodes.get? 5
      = (schemaOf (NewSchema 1 emptySchemaDoc)).nodes.get? 5 :=
  ⟨(C4_set_root_name_mutates_only_root_property (schemaOf (NewSchema 1 emptySchemaDoc)) "renamed").1,
   (C4_set_root_name_mutates_only_root_property (schemaOf (NewSchema 1 emptySchemaDoc)) "renamed").2.1
     5 (by decide)⟩

/-- C5 counterexample: the claim states that for every schema document with
a boolean `exclusiveMinimum` and no `minimum`, compilation returns an error
regardless of key order.  Refuted at
`{"$ref": "#/x", "x": {}, "exclusiveMinimum": true}`: the first-encounter
`$ref` makes `parseSchema` return after `parseReference` (src/schema.go line
265), the `exclusiveMinimum` block is never reached, and compilation
succeeds. -/
theorem C5_counterexample : isOkB (NewSchema 3 refExclusiveMinimumDoc) = true := rfl

/-- C5 (amended): `{"exclusiveMinimum": true}` fails with the
`exclusiveMinimum cannot be used without minimum` error, and in general, for
every schema document whose top level has no `$ref` key, a boolean
`exclusiveMinimum` and no `minimum`, compilation never succeeds, regardless
of the order in which the keys appear; with a first-encountered `$ref` on
the node the check is skipped. -/
theorem C5_exclusive_minimum_requires_minimum :
    (∀ (fuel : Nat) (m : List (String × JValue)) (b : Bool) (s : Schema),
      getKey m KEY_REF = none →
      getKey m KEY_EXCLUSIVE_MINIMUM = some (.bool b) →
      getKey m KEY_MINIMUM = none →
      NewSchema fuel (.obj m) ≠ .ok s) ∧
    NewSchema 1 exclusiveMinimumDoc
      = .error (.cannotBeUsedWithout KEY_EXCLUSIVE_MINIMUM KEY_MINIMUM) := by
  constructor
  · intro fuel m b s href hexcl hmin h
    simp only [NewSchema] at h
    split at h
    · rename_i p heq
      exact parseSchema_exclMin_never_ok _ fuel m false 0 _ _ b rfl href hexcl hmin _ heq
    · exact Except.noConfusion h
  · rfl

/-- C5 witness: the general statement applied to the flat document
`{"exclusiveMinimum": true}` with fuel 1, its hypotheses discharged by
evaluation. -/
theorem C5_exclusive_minimum_witness :
    getKey [(KEY_EXCLUSIVE_MINIMUM, JValue.bool true)] KEY_REF = none ∧
    getKey [(KEY_EXCLUSIVE_MINIMUM, JValue.bool true)] KEY_MINIMUM = none ∧
    NewSchema 1 (.obj [(KEY_EXCLUSIVE_MINIMUM, JValue.bool true)])
      ≠ .ok (schemaOf (NewSchema 0 emptySchemaDoc)) :=
  ⟨rfl, rfl,
   C5_exclusive_minimum_requires_minimum.1 1 [(KEY_EXCLUSIVE_MINIMUM, JValue.bool true)] true
     (schemaOf (NewSchema 0 emptySchemaDoc)) rfl rfl rfl⟩

/-- C6 counterexample: the claim states that compiling a schema with
`minItems` strictly greater than `maxItems` fails with a constraint
violation.  Refuted at `{"minItems": 5, "maxItems": 2}`: compilation
succeeds and both values are stored (the source has no cross-check between
src/schema.go lines 752 and 784, unlike lengths and property counts). -/
theorem C6_counterexample :
    isOkB (NewSchema 1 minMaxItemsDoc) = true ∧
    rootField (fun nd => nd.minItems) (NewSchema 1 minMaxItemsDoc) = some (some 5) ∧
    rootField (fun nd => nd.maxItems) (NewSchema 1 minMaxItemsDoc) = some (some 2) :=
  ⟨rfl, rfl, rfl⟩

/-- C6 (amended): `minItems` and `maxItems` are parsed and stored with no
cross-check: any pair of non-negative integer values compiles successfully
and lands on the node unchanged, whether or not `minItems ≤ maxItems`
holds.  (The `minimum/maximum`, `minLength/maxLength` and
`minProperties/maxProperties` pairs are cross-checked in the source; the
items pair is not.) -/
theorem C6_min_max_items_not_cross_checked (a b : Int) (ha : 0 ≤ a) (hb : 0 ≤ b) :
    isOkB (NewSchema 1 (.obj [(KEY_MIN_ITEMS, .num (a : Rat)), (KEY_MAX_ITEMS, .num (b : Rat))]))
        = true ∧
    rootField (fun nd => nd.minItems)
        (NewSchema 1 (.obj [(KEY_MIN_ITEMS, .num (a : Rat)), (KEY_MAX_ITEMS, .num (b : Rat))]))
        = some (some a) ∧
    rootField (fun nd => nd.maxItems)
        (NewSchema 1 (.obj [(KEY_MIN_ITEMS, .num (a : Rat)), (KEY_MAX_ITEMS, .num (b : Rat))]))
        = some (some b) := by
  have ha2 : ¬ (a < 0) := not_lt.mpr ha
  have hb2 : ¬ (b < 0) := not_lt.mpr hb
  refine ⟨?_, ?_, ?_⟩ <;>
    simp [NewSchema, parseSchema, parseSchemaRest, getKey, pBind, isOkB, rootField, rootNodeOf,
      isObjB_obj,
      stepSchemaKw, stepDefinitions, stepId, stepTitle, stepDescription, stepType,
      stepProperties, stepAdditionalProperties, stepPatternProperties, stepDependencies,
      stepItems, stepAdditionalItems, stepMultipleOf, stepMinimum, stepExclusiveMinimum,
      stepMaximum, stepExclusiveMaximum, stepMinMaxCheck, stepMinLength, stepMaxLength,
      stepLengthCheck, stepPattern, stepFormat, stepMinProperties, stepMaxProperties,
      stepPropertiesCheck, stepRequired, stepMinItems, stepMaxItems, stepUniqueItems,
      stepEnum, stepOneOf, stepAnyOf, stepAllOf, stepNot,
      KEY_SCHEMA, KEY_REF, KEY_DEFINITIONS, KEY_ID, KEY_TITLE, KEY_DESCRIPTION, KEY_TYPE,
      KEY_PROPERTIES, KEY_ADDITIONAL_PROPERTIES, KEY_PATTERN_PROPERTIES, KEY_DEPENDENCIES,
      KEY_ITEMS, KEY_ADDITIONAL_ITEMS, KEY_MULTIPLE_OF, KEY_MINIMUM, KEY_EXCLUSIVE_MINIMUM,
      KEY_MAXIMUM, KEY_EXCLUSIVE_MAXIMUM, KEY_MIN_LENGTH, KEY_MAX_LENGTH, KEY_PATTERN,
      KEY_FORMAT, KEY_MIN_PROPERTIES, KEY_MAX_PROPERTIES, KEY_REQUIRED, KEY_MIN_ITEMS,
      KEY_MAX_ITEMS, KEY_UNIQUE_ITEMS, KEY_ENUM, KEY_ONE_OF, KEY_ANY_OF, KEY_ALL_OF, KEY_NOT, emptySubSchema, mustBeInteger, Rat.den_intCast, Rat.num_intCast, ha2, hb2]

/-- C6 witness: the amended statement applied at minItems 5 and maxItems 2,
a pair that violates `min ≤ max` and still compiles. -/
theorem C6_min_max_items_witness :
    isOkB (NewSchema 1 (.obj [(KEY_MIN_ITEMS, .num ((5 : Int) : Rat)),
        (KEY_MAX_ITEMS, .num ((2 : Int) : Rat))])) = true ∧
    rootField (fun nd => nd.minItems) (NewSchema 1 (.obj [(KEY_MIN_ITEMS, .num ((5 : Int) : Rat)),
        (KEY_MAX_ITEMS, .num ((2 : Int) : Rat))])) = some (some 5) ∧
    rootField (fun nd => nd.maxItems) (NewSchema 1 (.obj [(KEY_MIN_ITEMS, .num ((5 : Int) : Rat)),
        (KEY_MAX_ITEMS, .num ((2 : Int) : Rat))])) = some (some 2) :=
  C6_min_max_items_not_cross_checked 5 2 (by decide) (by decide)

/-- C7 counterexample: the claim states that `{"type": ["string",
"string"]}` fails to compile because the type-set abstraction rejects
duplicates.  Refuted: compilation succeeds, and the type set holds a single
`"string"` entry — the array branch of the `type` block discards the `Add`
error (src/schema.go line 369). -/
theorem C7_counterexample :
    isOkB (NewSchema 1 duplicateTypeDoc) = true ∧
    rootField (fun nd => nd.types) (NewSchema 1 duplicateTypeDoc) = some ["string"] :=
  ⟨rfl, rfl⟩

/-- C7 (amended): a duplicated type name in a `type` array is silently
dropped: for every valid JSON type name, the schema
`{"type": [name, name]}` compiles successfully with the type set holding the
name once.  Only the single-string branch of the `type` block propagates the
`Add` error (src/schema.go line 361); the array branch discards it (line
369). -/
theorem C7_duplicate_type_silently_dropped (s : String) (hs : s ∈ JSON_TYPES) :
    isOkB (NewSchema 1 (.obj [(KEY_TYPE, .arr [.str s, .str s])])) = true ∧
    rootField (fun nd => nd.types) (NewSchema 1 (.obj [(KEY_TYPE, .arr [.str s, .str s])]))
      = some [s] := by
  constructor <;>
    simp [NewSchema, parseSchema, parseSchemaRest, getKey, pBind, isOkB, rootField, rootNodeOf,
      isObjB_obj,
      stepSchemaKw, stepDefinitions, stepId, stepTitle, stepDescription, stepType,
      stepProperties, stepAdditionalProperties, stepPatternProperties, stepDependencies,
      stepItems, stepAdditionalItems, stepMultipleOf, stepMinimum, stepExclusiveMinimum,
      stepMaximum, stepExclusiveMaximum, stepMinMaxCheck, stepMinLength, stepMaxLength,
      stepLengthCheck, stepPattern, stepFormat, stepMinProperties, stepMaxProperties,
      stepPropertiesCheck, stepRequired, stepMinItems, stepMaxItems, stepUniqueItems,
      stepEnum, stepOneOf, stepAnyOf, stepAllOf, stepNot,
      KEY_SCHEMA, KEY_REF, KEY_DEFINITIONS, KEY_ID, KEY_TITLE, KEY_DESCRIPTION, KEY_TYPE,
      KEY_PROPERTIES, KEY_ADDITIONAL_PROPERTIES, KEY_PATTERN_PROPERTIES, KEY_DEPENDENCIES,
      KEY_ITEMS, KEY_ADDITIONAL_ITEMS, KEY_MULTIPLE_OF, KEY_MINIMUM, KEY_EXCLUSIVE_MINIMUM,
      KEY_MAXIMUM, KEY_EXCLUSIVE_MAXIMUM, KEY_MIN_LENGTH, KEY_MAX_LENGTH, KEY_PATTERN,
      KEY_FORMAT, KEY_MIN_PROPERTIES, KEY_MAX_PROPERTIES, KEY_REQUIRED, KEY_MIN_ITEMS,
      KEY_MAX_ITEMS, KEY_UNIQUE_ITEMS, KEY_ENUM, KEY_ONE_OF, KEY_ANY_OF, KEY_ALL_OF, KEY_NOT, emptySubSchema, typesLoop, typesAdd, hs]

/-- C7 witness: the amended statement applied at the type name `"string"`. -/
theorem C7_duplicate_type_witness :
    isOkB (NewSchema 1 (.obj [(KEY_TYPE, .arr [.str "string", .str "string"])])) = true ∧
    rootField (fun nd => nd.types)
        (NewSchema 1 (.obj [(KEY_TYPE, .arr [.str "string", .str "string"])]))
      = some ["string"] :=
  C7_duplicate_type_silently_dropped "string" (by decide)

/-- C8 counterexample: the claim states that `{"title": 123}` fails with an
invalid-type compile error and that a string title is stored on the node.
Refuted: compilation succeeds and nothing is stored in `title` — the
keyword extraction switch (src/schema.go lines 171-238) has no case for
`title`, so the title block (lines 326-339) never runs. -/
theorem C8_counterexample :
    isOkB (NewSchema 1 numberTitleDoc) = true ∧
    rootField (fun nd => nd.title) (NewSchema 1 numberTitleDoc) = some none :=
  ⟨rfl, rfl⟩

/-- C8 (amended): the `title` keyword is never extracted, so any value of
any JSON type under `title` compiles successfully and the node's `title`
field stays unset. -/
theorem C8_title_never_extracted (v : JValue) :
    isOkB (NewSchema 1 (.obj [(KEY_TITLE, v)])) = true ∧
    rootField (fun nd => nd.title) (NewSchema 1 (.obj [(KEY_TITLE, v)])) = some none := by
  constructor <;>
    simp [NewSchema, parseSchema, parseSchemaRest, getKey, pBind, isOkB, rootField, rootNodeOf,
      isObjB_obj,
      stepSchemaKw, stepDefinitions, stepId, stepTitle, stepDescription, stepType,
      stepProperties, stepAdditionalProperties, stepPatternProperties, stepDependencies,
      stepItems, stepAdditionalItems, stepMultipleOf, stepMinimum, stepExclusiveMinimum,
      stepMaximum, stepExclusiveMaximum, stepMinMaxCheck, stepMinLength, stepMaxLength,
      stepLengthCheck, stepPattern, stepFormat, stepMinProperties, stepMaxProperties,
      stepPropertiesCheck, stepRequired, stepMinItems, stepMaxItems, stepUniqueItems,
      stepEnum, stepOneOf, stepAnyOf, stepAllOf, stepNot,
      KEY_SCHEMA, KEY_REF, KEY_DEFINITIONS, KEY_ID, KEY_TITLE, KEY_DESCRIPTION, KEY_TYPE,
      KEY_PROPERTIES, KEY_ADDITIONAL_PROPERTIES, KEY_PATTERN_PROPERTIES, KEY_DEPENDENCIES,
      KEY_ITEMS, KEY_ADDITIONAL_ITEMS, KEY_MULTIPLE_OF, KEY_MINIMUM, KEY_EXCLUSIVE_MINIMUM,
      KEY_MAXIMUM, KEY_EXCLUSIVE_MAXIMUM, KEY_MIN_LENGTH, KEY_MAX_LENGTH, KEY_PATTERN,
      KEY_FORMAT, KEY_MIN_PROPERTIES, KEY_MAX_PROPERTIES, KEY_REQUIRED, KEY_MIN_ITEMS,
      KEY_MAX_ITEMS, KEY_UNIQUE_ITEMS, KEY_ENUM, KEY_ONE_OF, KEY_ANY_OF, KEY_ALL_OF, KEY_NOT, emptySubSchema]

/-- C9: compiling `{"allOf": 3}` (a non-sequence `allOf`) fails with a
compile error — but the error's details name `anyOf`, not `allOf`: the
fallback branch of the `allOf` block uses `KEY_ANY_OF` (src/schema.go line
862), the copy-paste slip the spec flags in section 9.  The claim, which
says the error names `allOf`, matches the spec's stated intent; the code is
the outlier. -/
theorem C9_allof_error_names_anyof :
    NewSchema 1 allOfNumberDoc = .error (.mustBeOfAn KEY_ANY_OF TYPE_ARRAY) ∧
    KEY_ANY_OF ≠ KEY_ALL_OF :=
  ⟨rfl, by decide⟩

/-- C10: a `dependencies` entry mapping a property name to an empty sequence
compiles successfully and leaves no entry for that name: the registration
`currentSchema.dependencies[k] = valuesToRegister` sits inside the loop over
the sequence's elements (src/schema.go line 1009), so an empty sequence
registers nothing, while the map itself was initialised empty (line 988).
Shown in general for `parseDependencies` on `{k: []}` over any state, and
concretely for `NewSchema` on `{"dependencies": {"a": []}}`. -/
theorem C10_empty_dependency_list_dropped :
    (∀ (k : String) (pf : ParseFn) (selfId : Nat) (cur : SubSchema) (st : ParseState),
      parseDependencies pf selfId (.obj [(k, .arr [])]) (cur, st)
        = .ok ({ cur with dependencies := some [] }, st)) ∧
    isOkB (NewSchema 2 emptyDependencyDoc) = true ∧
    rootField (fun nd => nd.dependencies) (NewSchema 2 emptyDependencyDoc) = some (some []) :=
  ⟨fun _ _ _ _ _ => rfl, rfl, rfl⟩

end GoJsonSchema
